import Mathlib

/-!
Verification of the pgsql_train ingestion core.

This file gives a shallow embedding of the identifier scheme
(`src/src/models/paper_metadata.py`, `src/experimental/enhanced_paper_models.py`),
the repository layer (`src/src/database/repositories.py`) and the ingestion
pipeline (`src/src/paper_processor.py`), and proves properties of them.

Machine integers are modelled as `Nat` (Python integers are unbounded; the
source masks explicitly where a width matters, and those masks are kept
verbatim).  SHA-256 is embedded in full so that the content-addressed id
generators are the real functions, not stubs.
-/

namespace PgsqlTrain

/-! ### SHA-256 (FIPS 180-4), big-endian, over byte lists.
Model of Python `hashlib.sha256(...).digest()`. -/

/-- Truncate to a 32-bit word. -/
def w32 (x : Nat) : Nat := x % 4294967296

/-- 32-bit rotate right. -/
def rotr (n x : Nat) : Nat := w32 ((x >>> n) ||| (x <<< (32 - n)))

/-- SHA-256 round constants (decimal values of the standard k table). -/
def shaK : List Nat :=
  [1116352408, 1899447441, 3049323471, 3921009573, 961987163, 1508970993,
   2453635748, 2870763221, 3624381080, 310598401, 607225278, 1426881987,
   1925078388, 2162078206, 2614888103, 3248222580, 3835390401, 4022224774,
   264347078, 604807628, 770255983, 1249150122, 1555081692, 1996064986,
   2554220882, 2821834349, 2952996808, 3210313671, 3336571891, 3584528711,
   113926993, 338241895, 666307205, 773529912, 1294757372, 1396182291,
   1695183700, 1986661051, 2177026350, 2456956037, 2730485921, 2820302411,
   3259730800, 3345764771, 3516065817, 3600352804, 4094571909, 275423344,
   430227734, 506948616, 659060556, 883997877, 958139571, 1322822218,
   1537002063, 1747873779, 1955562222, 2024104815, 2227730452, 2361852424,
   2428436474, 2756734187, 3204031479, 3329325298]

/-- SHA-256 initial hash value (decimal values of the standard h table). -/
def shaH0 : List Nat :=
  [1779033703, 3144134277, 1013904242, 2773480762,
   1359893119, 2600822924, 528734635, 1541459225]

/-- Big-endian byte serialization of `x` on `n` bytes. -/
def bytesBE : Nat → Nat → List Nat
  | 0, _ => []
  | n + 1, x => ((x >>> (8 * n)) % 256) :: bytesBE n x

/-- SHA-256 padding: append 0x80, zero bytes, and the 64-bit big-endian bit length. -/
def padMessage (msg : List Nat) : List Nat :=
  msg ++ [0x80] ++ List.replicate ((119 - msg.length % 64) % 64) 0 ++ bytesBE 8 (8 * msg.length)

/-- Group bytes into big-endian 32-bit words. -/
def toWords : List Nat → List Nat
  | b0 :: b1 :: b2 :: b3 :: rest => (((b0 * 256 + b1) * 256 + b2) * 256 + b3) :: toWords rest
  | _ => []

/-- Small sigma 0. -/
def ssig0 (x : Nat) : Nat := rotr 7 x ^^^ rotr 18 x ^^^ (x >>> 3)

/-- Small sigma 1. -/
def ssig1 (x : Nat) : Nat := rotr 17 x ^^^ rotr 19 x ^^^ (x >>> 10)

/-- Extend the 16-word message schedule by `n` further words. -/
def extendSchedule : Nat → List Nat → List Nat
  | 0, ws => ws
  | n + 1, ws =>
    extendSchedule n (ws ++ [w32 (ssig1 (ws.getD (ws.length - 2) 0) + ws.getD (ws.length - 7) 0 +
      ssig0 (ws.getD (ws.length - 15) 0) + ws.getD (ws.length - 16) 0)])

/-- One SHA-256 compression round on the eight working registers. -/
def compressRound (regs : List Nat) (k w : Nat) : List Nat :=
  match regs with
  | [a, b, c, d, e, f, g, h] =>
    let s1 := rotr 6 e ^^^ rotr 11 e ^^^ rotr 25 e
    let ch := (e &&& f) ^^^ ((e ^^^ 0xFFFFFFFF) &&& g)
    let t1 := w32 (h + s1 + ch + k + w)
    let s0 := rotr 2 a ^^^ rotr 13 a ^^^ rotr 22 a
    let mj := (a &&& b) ^^^ (a &&& c) ^^^ (b &&& c)
    let t2 := w32 (s0 + mj)
    [w32 (t1 + t2), a, b, c, w32 (d + t1), e, f, g]
  | _ => regs

/-- Compress one 64-byte block into the running hash value. -/
def compressBlock (h : List Nat) (block : List Nat) : List Nat :=
  let ws := extendSchedule 48 (toWords block)
  let regs := (shaK.zip ws).foldl (fun rs kw => compressRound rs kw.1 kw.2) h
  (h.zip regs).map (fun p => w32 (p.1 + p.2))

/-- Split a byte list into chunks of 64 (structural recursion on a fuel
counter so that the definition reduces in the kernel). -/
def chunksOf64Aux : Nat → List Nat → List (List Nat)
  | 0, _ => []
  | _, [] => []
  | fuel + 1, x :: rest => ((x :: rest).take 64) :: chunksOf64Aux fuel ((x :: rest).drop 64)

/-- Split a byte list into chunks of 64. -/
def chunksOf64 (l : List Nat) : List (List Nat) := chunksOf64Aux l.length l

/-- SHA-256 digest (32 bytes) of a byte message. -/
def sha256Bytes (msg : List Nat) : List Nat :=
  (((chunksOf64 (padMessage msg)).foldl compressBlock shaH0).map (bytesBE 4)).flatten

/-- UTF-8 encoding of one unicode scalar value (Python `str.encode`). -/
def utf8Char (c : Char) : List Nat :=
  let n := c.toNat
  if n < 0x80 then [n]
  else if n < 0x800 then [0xC0 ||| (n >>> 6), 0x80 ||| (n &&& 0x3F)]
  else if n < 0x10000 then
    [0xE0 ||| (n >>> 12), 0x80 ||| ((n >>> 6) &&& 0x3F), 0x80 ||| (n &&& 0x3F)]
  else
    [0xF0 ||| (n >>> 18), 0x80 ||| ((n >>> 12) &&& 0x3F), 0x80 ||| ((n >>> 6) &&& 0x3F),
     0x80 ||| (n &&& 0x3F)]

/-- UTF-8 encoding of a string. -/
def utf8Bytes (s : String) : List Nat := (s.data.map utf8Char).flatten

/-- Python `int.from_bytes(bs, byteorder='big')`. -/
def intFromBytesBE (bs : List Nat) : Nat := bs.foldl (fun acc b => acc * 256 + b) 0

/-- Lowercase hex digit. -/
def hexDigit (n : Nat) : Char := ("0123456789abcdef".data).getD n '0'

/-- Python `hashlib` `hexdigest()` of a byte list. -/
def hexDigest (bs : List Nat) : String :=
  String.mk ((bs.map (fun b => [hexDigit (b / 16), hexDigit (b % 16)])).flatten)

/-- Value of one hex character (as accepted by Python `int(_, 16)`; other
characters would raise there and never occur in a digest). -/
def hexCharVal (c : Char) : Nat :=
  if '0' ≤ c ∧ c ≤ '9' then c.toNat - 48
  else if 'a' ≤ c ∧ c ≤ 'f' then c.toNat - 87
  else if 'A' ≤ c ∧ c ≤ 'F' then c.toNat - 55
  else 0

/-- Python `int(s, 16)`. -/
def parseHexNat (s : String) : Nat := s.data.foldl (fun acc c => acc * 16 + hexCharVal c) 0

/-! ### The identifier generators. -/

/-- `generate_64bit_id` from `src/src/models/paper_metadata.py`: hash
`f"{source_file}:{content[:1000]}"`, take the first 16 hex characters of the
SHA-256 hex digest, and clear the sign bit. -/
def generate_64bit_id (content : String) (source_file : String) : Nat :=
  let combined_input := source_file ++ ":" ++ content.take 1000
  let hash_hex := hexDigest (sha256Bytes (utf8Bytes combined_input))
  parseHexNat (hash_hex.take 16) &&& 0x7FFFFFFFFFFFFFFF

/-- `generate_content_id` from `src/experimental/enhanced_paper_models.py`:
the first 8 bytes of `sha256(content + salt)` as a big-endian unsigned
integer.  Note: no sign-bit mask is applied here. -/
def generate_content_id (content : String) (salt : String) : Nat :=
  intFromBytesBE ((sha256Bytes (utf8Bytes (content ++ salt))).take 8)

/-- The `TYPE_CODES` dictionary of `generate_hierarchical_id`. -/
def TYPE_CODES : List (String × Nat) :=
  [("section", 0x0001), ("table", 0x0002), ("image", 0x0003), ("reference", 0x0004),
   ("citation", 0x0005), ("author", 0x0006), ("statistic", 0x0007), ("finding", 0x0008)]

/-- `generate_hierarchical_id` from `src/experimental/enhanced_paper_models.py`:
pack the low 32 bits of the paper id, a 16-bit type code (`TYPE_CODES.get`,
default `0xFFFF`), and the low 16 bits of the sequence. -/
def generate_hierarchical_id (paper_id : Nat) (element_type : String) (sequence : Nat) : Nat :=
  let paper_id_32 := paper_id &&& 0xFFFFFFFF
  let type_code := (List.lookup element_type TYPE_CODES).getD 0xFFFF
  let sequence_16 := sequence &&& 0xFFFF
  (paper_id_32 <<< 32) ||| (type_code <<< 16) ||| sequence_16

/-! ### Arithmetic facts about the identifier generators. -/

/-- Every byte produced by `bytesBE` is below 256. -/
theorem bytesBE_lt (n x : Nat) : ∀ b ∈ bytesBE n x, b < 256 := by
  induction n generalizing x with
  | zero => simp [bytesBE]
  | succ n ih =>
    intro b hb
    simp only [bytesBE, List.mem_cons] at hb
    rcases hb with h | h
    · omega
    · exact ih x b h

/-- Every byte of a SHA-256 digest is below 256. -/
theorem sha256Bytes_lt (msg : List Nat) : ∀ b ∈ sha256Bytes msg, b < 256 := by
  intro b hb
  unfold sha256Bytes at hb
  simp only [List.mem_flatten, List.mem_map] at hb
  obtain ⟨l, ⟨w, _, rfl⟩, hbl⟩ := hb
  exact bytesBE_lt 4 w b hbl

/-- A big-endian byte-list value is bounded by 256 to its length. -/
theorem intFromBytesBE_lt (bs : List Nat) (h : ∀ b ∈ bs, b < 256) :
    intFromBytesBE bs < 256 ^ bs.length := by
  suffices h' : ∀ acc, List.foldl (fun acc b => acc * 256 + b) acc bs < (acc + 1) * 256 ^ bs.length by
    have := h' 0
    simpa [intFromBytesBE] using this
  induction bs with
  | nil => intro acc; simp
  | cons b bs ih =>
    intro acc
    have hb : b < 256 := h b (by simp)
    have hrec := ih (fun x hx => h x (by simp [hx])) (acc * 256 + b)
    simp only [List.foldl_cons, List.length_cons]
    calc List.foldl (fun acc b => acc * 256 + b) (acc * 256 + b) bs
        < (acc * 256 + b + 1) * 256 ^ bs.length := hrec
      _ ≤ ((acc + 1) * 256) * 256 ^ bs.length := by
          have : acc * 256 + b + 1 ≤ (acc + 1) * 256 := by omega
          exact Nat.mul_le_mul_right _ this
      _ = (acc + 1) * 256 ^ (bs.length + 1) := by ring

/-- The type code drawn from `TYPE_CODES` (or the `0xFFFF` default) fits 16 bits. -/
theorem typeCode_lt (t : String) : (List.lookup t TYPE_CODES).getD 0xFFFF < 65536 := by
  simp only [TYPE_CODES, List.lookup]
  repeat' split
  all_goals simp

/-- The 32-bit mask of the source, as a remainder. -/
theorem and_mask32 (x : Nat) : x &&& 4294967295 = x % 4294967296 := by
  have := Nat.and_pow_two_sub_one_eq_mod x 32
  norm_num at this
  exact this

/-- The 16-bit mask of the source, as a remainder. -/
theorem and_mask16 (x : Nat) : x &&& 65535 = x % 65536 := by
  have := Nat.and_pow_two_sub_one_eq_mod x 16
  norm_num at this
  exact this

/-- `generate_hierarchical_id` in plain arithmetic: the bit-packing
`(p & 0xFFFFFFFF) << 32 | code << 16 | (s & 0xFFFF)` is exactly
`(p % 2^32)·2^32 + code·2^16 + (s % 2^16)`. -/
theorem generate_hierarchical_id_eq (p : Nat) (t : String) (s : Nat) :
    generate_hierarchical_id p t s =
      (p % 4294967296) * 4294967296 +
        ((List.lookup t TYPE_CODES).getD 0xFFFF) * 65536 + s % 65536 := by
  have htc := typeCode_lt t
  simp only [generate_hierarchical_id, and_mask32, and_mask16, Nat.shiftLeft_eq]
  set tc := (List.lookup t TYPE_CODES).getD 0xFFFF with htcdef
  have h1 : p % 4294967296 * 2 ^ 32 ||| tc * 2 ^ 16 = p % 4294967296 * 2 ^ 32 + tc * 2 ^ 16 := by
    have hb : tc * 2 ^ 16 < 2 ^ 32 := by omega
    have := Nat.mul_add_lt_is_or hb (p % 4294967296)
    rw [Nat.mul_comm (p % 4294967296) (2 ^ 32), ← this]
  have h2 : p % 4294967296 * 2 ^ 32 + tc * 2 ^ 16 ||| s % 65536
      = p % 4294967296 * 2 ^ 32 + tc * 2 ^ 16 + s % 65536 := by
    have hs : s % 65536 < 2 ^ 16 := by
      have := Nat.mod_lt s (show 0 < 65536 by norm_num)
      omega
    have := Nat.mul_add_lt_is_or hs (p % 4294967296 * 2 ^ 16 + tc)
    have hrw : p % 4294967296 * 2 ^ 32 + tc * 2 ^ 16
        = 2 ^ 16 * (p % 4294967296 * 2 ^ 16 + tc) := by ring
    rw [hrw, ← this]
  rw [h1, h2]
  norm_num

/-- The packed id is below 2^64. -/
theorem generate_hierarchical_id_lt (p : Nat) (t : String) (s : Nat) :
    generate_hierarchical_id p t s < 2 ^ 64 := by
  rw [generate_hierarchical_id_eq]
  have h1 : p % 4294967296 < 4294967296 := Nat.mod_lt _ (by norm_num)
  have h2 := typeCode_lt t
  have h3 : s % 65536 < 65536 := Nat.mod_lt _ (by norm_num)
  omega

/-- `generate_content_id` is below 2^64 (8 digest bytes, big-endian). -/
theorem generate_content_id_lt (c s : String) : generate_content_id c s < 2 ^ 64 := by
  unfold generate_content_id
  have h1 : ∀ b ∈ (sha256Bytes (utf8Bytes (c ++ s))).take 8, b < 256 := fun b hb =>
    sha256Bytes_lt _ b (List.take_subset _ _ hb)
  calc intFromBytesBE ((sha256Bytes (utf8Bytes (c ++ s))).take 8)
      < 256 ^ ((sha256Bytes (utf8Bytes (c ++ s))).take 8).length := intFromBytesBE_lt _ h1
    _ ≤ 256 ^ 8 := Nat.pow_le_pow_right (by norm_num) (by simp)
    _ = 2 ^ 64 := by norm_num

/-- C2, counterexample: neither generator clears the sign bit.  The packed
hierarchical id of a paper id with bit 31 set, and the content id of the
empty string, both reach `[2^63, 2^64)`. -/
theorem id_range_counterexample :
    2 ^ 63 ≤ generate_hierarchical_id 2147483648 "section" 0 ∧
      2 ^ 63 ≤ generate_content_id "" "" := by
  constructor <;> decide

/-- C2 (amended): `generate_content_id` and `generate_hierarchical_id` always
return values in `[0, 2^64)`; no sign-bit mask is applied, so values at or
above `2^63` do occur (see the counterexample). -/
theorem id_generators_lt_two_pow_64 :
    ∀ (content salt : String) (p : Nat) (t : String) (s : Nat),
      generate_content_id content salt < 2 ^ 64 ∧ generate_hierarchical_id p t s < 2 ^ 64 :=
  fun content salt p t s => ⟨generate_content_id_lt content salt, generate_hierarchical_id_lt p t s⟩

/-- A type string with an entry in `TYPE_CODES` is one of the eight known kinds. -/
theorem known_type_cases (t : String) (h : (List.lookup t TYPE_CODES).isSome) :
    t = "section" ∨ t = "table" ∨ t = "image" ∨ t = "reference" ∨
      t = "citation" ∨ t = "author" ∨ t = "statistic" ∨ t = "finding" := by
  simp [TYPE_CODES] at h
  tauto

/-- Distinct type codes give distinct hierarchical ids (same paper, same sequence). -/
theorem hid_ne_of_code_ne (p s : Nat) (ta tb : String)
    (h : (List.lookup ta TYPE_CODES).getD 0xFFFF ≠ (List.lookup tb TYPE_CODES).getD 0xFFFF) :
    generate_hierarchical_id p ta s ≠ generate_hierarchical_id p tb s := by
  intro heq
  rw [generate_hierarchical_id_eq, generate_hierarchical_id_eq] at heq
  have h1 := typeCode_lt ta
  have h2 := typeCode_lt tb
  omega

/-- C4, counterexample: two distinct element-type strings outside the closed
enumeration both map to the sentinel code `0xFFFF` and collide. -/
theorem hierarchical_id_unknown_types_collide :
    generate_hierarchical_id 1 "foo" 1 = generate_hierarchical_id 1 "bar" 1 ∧
      ("foo" : String) ≠ "bar" := by
  constructor <;> decide

/-- C4 (amended): for two distinct element types drawn from the closed
`TYPE_CODES` enumeration, the hierarchical ids never collide (any paper id,
any sequence). -/
theorem hierarchical_id_known_types_disjoint (p s : Nat) (ta tb : String)
    (ha : (List.lookup ta TYPE_CODES).isSome) (hb : (List.lookup tb TYPE_CODES).isSome)
    (hne : ta ≠ tb) :
    generate_hierarchical_id p ta s ≠ generate_hierarchical_id p tb s := by
  rcases known_type_cases ta ha with rfl | rfl | rfl | rfl | rfl | rfl | rfl | rfl <;>
    rcases known_type_cases tb hb with rfl | rfl | rfl | rfl | rfl | rfl | rfl | rfl <;>
      first
        | exact absurd rfl hne
        | exact hid_ne_of_code_ne p s _ _ (by decide)

/-- Witness for the amended C4 theorem at `section` versus `table`. -/
theorem hierarchical_id_known_types_disjoint_witness :
    generate_hierarchical_id 7 "section" 3 ≠ generate_hierarchical_id 7 "table" 3 :=
  hierarchical_id_known_types_disjoint 7 3 "section" "table" (by decide) (by decide) (by decide)

/-- C8: `generate_64bit_id` depends on its content argument only through the
first 1000 characters (`content[:1000]`); in particular it is deterministic
in `(content, source_file)`. -/
theorem generate_64bit_id_content_1000 (c1 c2 sf : String)
    (h : c1.take 1000 = c2.take 1000) :
    generate_64bit_id c1 sf = generate_64bit_id c2 sf := by
  unfold generate_64bit_id
  rw [h]

/-- Witness for C8 at concrete strings agreeing on their 1000-prefix. -/
theorem generate_64bit_id_content_1000_witness :
    ("abc" : String).take 1000 = ("abc" : String).take 1000 ∧
      generate_64bit_id "abc" "paper.md" = generate_64bit_id "abc" "paper.md" :=
  ⟨rfl, generate_64bit_id_content_1000 "abc" "abc" "paper.md" rfl⟩

/-- C9: the sequence field occupies the low 16 bits and wraps modulo 65536;
the generator is total, so no error is raised and no other correction is
applied to an oversized sequence. -/
theorem hierarchical_id_seq_wraps (p : Nat) (t : String) (s : Nat) :
    generate_hierarchical_id p t s = generate_hierarchical_id p t (s % 65536) := by
  rw [generate_hierarchical_id_eq, generate_hierarchical_id_eq, Nat.mod_mod_of_dvd s dvd_rfl]

/-- C10: `generate_hierarchical_id` sees only the low 32 bits of the paper id,
so two paper ids congruent modulo 2^32 yield identical sub-entity ids. -/
theorem hierarchical_id_low32 :
    (∀ p t s, generate_hierarchical_id p t s = generate_hierarchical_id (p % 4294967296) t s) ∧
      (∀ p1 p2 t s, p1 % 4294967296 = p2 % 4294967296 →
        generate_hierarchical_id p1 t s = generate_hierarchical_id p2 t s) := by
  constructor
  · intro p t s
    rw [generate_hierarchical_id_eq, generate_hierarchical_id_eq, Nat.mod_mod_of_dvd p dvd_rfl]
  · intro p1 p2 t s h
    rw [generate_hierarchical_id_eq, generate_hierarchical_id_eq, h]

/-- Witness for C10 at the distinct paper ids 1 and 2^32 + 1. -/
theorem hierarchical_id_low32_witness :
    generate_hierarchical_id 1 "table" 2 = generate_hierarchical_id 4294967297 "table" 2 :=
  hierarchical_id_low32.2 1 4294967297 "table" 2 (by decide)

/-! ### Data model (mirroring `src/src/models` and the repository column lists).
Timestamps and dates are kept as opaque strings: the repositories' string-to-date
normalisation touches no field any claim depends on. -/

/-- `PaperMetadata` (`src/src/models/paper_metadata.py`), with the fields of the
`paper_metadata` INSERT/UPDATE column list. -/
structure PaperMetadata where
  id : Nat
  title : String
  authors : List String
  journal : Option String
  publication_date : Option String
  doi : Option String
  volume : Option String
  issue : Option String
  pages : Option String
  abstract : Option String
  keywords : List String
  source_file : String
  extracted_at : String
  funding_sources : List String
  conflict_of_interest : Option String
  data_availability : Option String
  ethics_approval : Option String
  registration_number : Option String
  supplemental_materials : List String
deriving Repr, DecidableEq

/-- `TextSection` (`src/src/models/text_section.py`). -/
structure TextSection where
  id : Nat
  paper_id : Option Nat
  title : String
  content : String
  summary : String
  keywords : List String
  section_number : Nat
  level : Nat
  word_count : Nat
  extracted_at : String
deriving Repr, DecidableEq

/-- `TableData` (`src/src/models/table_data.py`). -/
structure TableData where
  id : Nat
  paper_id : Option Nat
  table_number : Nat
  title : String
  raw_content : String
  summary : String
  context_analysis : String
  statistical_findings : String
  keywords : List String
  column_count : Nat
  row_count : Nat
  extracted_at : String
deriving Repr, DecidableEq

/-- `ImageData` (`src/src/models/image_data.py`). -/
structure ImageData where
  id : Nat
  paper_id : Option Nat
  image_number : Nat
  alt_text : String
  image_data : String
  image_format : String
  summary : String
  graphic_analysis : String
  statistical_analysis : String
  contextual_relevance : String
  keywords : List String
  extracted_at : String
deriving Repr, DecidableEq

/-- The relational state: the four row stores of the `papers` schema
(`paper_metadata`, `text_sections`, `table_data`, `paper_images`). -/
structure DB where
  papers : List PaperMetadata
  sections : List TextSection
  tables : List TableData
  images : List ImageData
deriving Repr, DecidableEq

/-- One SQL statement issued through a cursor, with the data it carries
(reads record the key they query, writes record the row or key). -/
inductive SqlOp where
  | selectPaperByDoi (doi : String)
  | selectPaperByTitle (title : String)
  | countSectionsByPaper (paper_id : Nat)
  | countTablesByPaper (paper_id : Nat)
  | selectImagesByPaper (paper_id : Nat)
  | insertPaper (row : PaperMetadata)
  | updatePaper (row : PaperMetadata)
  | upsertSection (row : TextSection)
  | insertTable (row : TableData)
  | upsertImage (row : ImageData)
  | deleteSectionsByPaper (paper_id : Nat)
  | deleteTablesByPaper (paper_id : Nat)
  | deleteImagesByPaper (paper_id : Nat)
deriving Repr, DecidableEq

/-- One open psycopg2 connection with its single transaction.

`committed` is the state a concurrent reader (or the next run) sees;
`work` is the uncommitted state visible to statements of this transaction;
`aborted` is PostgreSQL's failed-transaction flag: after any errored
statement every further statement fails until the transaction block ends,
and a `COMMIT` of an aborted transaction is executed as a `ROLLBACK`.
`trace` records every statement issued; `stmtIdx` counts them, for fault
injection. -/
structure Session where
  committed : DB
  work : DB
  aborted : Bool
  trace : List SqlOp
  stmtIdx : Nat
deriving Repr, DecidableEq

/-- Open a connection/transaction on a committed state (`DatabaseConnection.connect`). -/
def openSession (pre : DB) : Session :=
  { committed := pre, work := pre, aborted := false, trace := [], stmtIdx := 0 }

/-- A database-side error surfacing as a Python exception from `cursor.execute`. -/
inductive PyExc where
  | dbError
deriving Repr, DecidableEq

/-- Execute one SQL statement.  `faults n = true` injects a server-side error
into the n-th statement of the session.  `apply` is the statement's semantics
on the working state: `none` models an integrity-constraint violation.
A statement executed in an aborted transaction fails without touching data
(PostgreSQL: `current transaction is aborted`). -/
def execSql {α : Type} (faults : Nat → Bool) (op : SqlOp) (apply : DB → Option (α × DB))
    (s : Session) : Except PyExc α × Session :=
  let s' := { s with trace := s.trace ++ [op], stmtIdx := s.stmtIdx + 1 }
  if s.aborted then (Except.error PyExc.dbError, s')
  else if faults s.stmtIdx then (Except.error PyExc.dbError, { s' with aborted := true })
  else match apply s.work with
    | some (a, db) => (Except.ok a, { s' with work := db })
    | none => (Except.error PyExc.dbError, { s' with aborted := true })

/-- `connection.commit()`: publishes the working state; on an aborted
transaction PostgreSQL turns the COMMIT into a ROLLBACK (no error). -/
def commitTxn (s : Session) : Session :=
  if s.aborted then { s with work := s.committed, aborted := false }
  else { s with committed := s.work }

/-- `connection.rollback()` (also what closing without commit does):
discards the working state. -/
def rollbackTxn (s : Session) : Session :=
  { s with work := s.committed, aborted := false }

/-! ### Statement semantics on the working state.
Integrity constraints follow the DDL of `schema_manager.py`: each table has a
BIGINT primary key `id`; sections/tables/images have a NOT NULL `paper_id`
foreign key; `table_data` has UNIQUE (paper_id, table_number) and
`paper_images` UNIQUE (paper_id, image_number). -/

/-- `SELECT id, title, doi ... WHERE doi = %s` (`find_by_doi`); a NULL doi never matches. -/
def findByDoiDb (doi : String) (db : DB) : Option (Option PaperMetadata × DB) :=
  some (db.papers.find? (fun r => r.doi == some doi), db)

/-- `SELECT id, title, doi ... WHERE title = %s` (`find_by_title`), exact match. -/
def findByTitleDb (title : String) (db : DB) : Option (Option PaperMetadata × DB) :=
  some (db.papers.find? (fun r => r.title == title), db)

/-- The INSERT of `PaperMetadataRepository.save`: plain insert, PK conflict errors. -/
def insertPaperDb (row : PaperMetadata) (db : DB) : Option (Unit × DB) :=
  if db.papers.any (fun r => r.id == row.id) then none
  else some ((), { db with papers := db.papers ++ [row] })

/-- The UPDATE of `PaperMetadataRepository.update`: replaces the mutable fields
of the row with matching id and reports `cursor.rowcount > 0`. -/
def updatePaperDb (row : PaperMetadata) (db : DB) : Option (Bool × DB) :=
  some (db.papers.any (fun r => r.id == row.id),
    { db with papers := db.papers.map (fun r => if r.id == row.id then row else r) })

/-- The INSERT ... ON CONFLICT (id) DO UPDATE of `TextSectionsRepository.save`:
an id conflict updates every column to the new row's fields. -/
def upsertSectionDb (row : TextSection) (db : DB) : Option (Unit × DB) :=
  match row.paper_id with
  | none => none
  | some pid =>
    if db.papers.any (fun p => p.id == pid) then
      if db.sections.any (fun r => r.id == row.id) then
        some ((), { db with
          sections := db.sections.map (fun r => if r.id == row.id then row else r) })
      else some ((), { db with sections := db.sections ++ [row] })
    else none

/-- The plain INSERT of `TableDataRepository.save_table` (no ON CONFLICT clause):
a PK or UNIQUE (paper_id, table_number) conflict errors. -/
def insertTableDb (row : TableData) (db : DB) : Option (Unit × DB) :=
  match row.paper_id with
  | none => none
  | some pid =>
    if !db.papers.any (fun p => p.id == pid) then none
    else if db.tables.any (fun r => r.id == row.id) then none
    else if db.tables.any (fun r => r.paper_id == row.paper_id &&
        r.table_number == row.table_number) then none
    else some ((), { db with tables := db.tables ++ [row] })

/-- Modelled from the spec: the body of `ImageRepository` is imported by the
pipeline but is not present under src/ (only its callers are); §4.3 prescribes
upsert semantics for the image kind, and the DDL gives `paper_images` a PK on
id, an FK to the paper, and UNIQUE (paper_id, image_number). -/
def upsertImageDb (row : ImageData) (db : DB) : Option (Unit × DB) :=
  match row.paper_id with
  | none => none
  | some pid =>
    if !db.papers.any (fun p => p.id == pid) then none
    else if db.images.any (fun r => r.id == row.id) then
      some ((), { db with
        images := db.images.map (fun r => if r.id == row.id then row else r) })
    else if db.images.any (fun r => r.paper_id == row.paper_id &&
        r.image_number == row.image_number) then none
    else some ((), { db with images := db.images ++ [row] })

/-- `DELETE FROM text_sections WHERE paper_id = %s`. -/
def deleteSectionsDb (pid : Nat) (db : DB) : Option (Unit × DB) :=
  some ((), { db with sections := db.sections.filter (fun r => !(r.paper_id == some pid)) })

/-- `DELETE FROM table_data WHERE paper_id = %s`. -/
def deleteTablesDb (pid : Nat) (db : DB) : Option (Unit × DB) :=
  some ((), { db with tables := db.tables.filter (fun r => !(r.paper_id == some pid)) })

/-- `DELETE FROM paper_images WHERE paper_id = %s` (delete-by-parent of the
image store; statement shape as for the sibling stores). -/
def deleteImagesDb (pid : Nat) (db : DB) : Option (Unit × DB) :=
  some ((), { db with images := db.images.filter (fun r => !(r.paper_id == some pid)) })

/-! ### Repository methods (`src/src/database/repositories.py`), with each
method's own exception handling. -/

/-- `find_by_doi`: no try/except around the execute, so an error propagates. -/
def findByDoi (faults : Nat → Bool) (doi : String) (s : Session) :
    Except PyExc (Option PaperMetadata) × Session :=
  execSql faults (SqlOp.selectPaperByDoi doi) (findByDoiDb doi) s

/-- `find_by_title`: no try/except around the execute, so an error propagates. -/
def findByTitle (faults : Nat → Bool) (title : String) (s : Session) :
    Except PyExc (Option PaperMetadata) × Session :=
  execSql faults (SqlOp.selectPaperByTitle title) (findByTitleDb title) s

/-- `PaperMetadataRepository.save`: catches, logs and RE-raises. -/
def savePaper (faults : Nat → Bool) (row : PaperMetadata) (s : Session) :
    Except PyExc Unit × Session :=
  execSql faults (SqlOp.insertPaper row) (insertPaperDb row) s

/-- `PaperMetadataRepository.update`: catches and returns False. -/
def updatePaper (faults : Nat → Bool) (row : PaperMetadata) (s : Session) :
    Bool × Session :=
  match execSql faults (SqlOp.updatePaper row) (updatePaperDb row) s with
  | (Except.ok matched, s') => (matched, s')
  | (Except.error _, s') => (false, s')

/-- `TextSectionsRepository.save`: catches and returns False. -/
def saveTextSection (faults : Nat → Bool) (row : TextSection) (s : Session) :
    Bool × Session :=
  match execSql faults (SqlOp.upsertSection row) (upsertSectionDb row) s with
  | (Except.ok _, s') => (true, s')
  | (Except.error _, s') => (false, s')

/-- `TableDataRepository.save_table`: catches and returns False. -/
def saveTable (faults : Nat → Bool) (row : TableData) (s : Session) :
    Bool × Session :=
  match execSql faults (SqlOp.insertTable row) (insertTableDb row) s with
  | (Except.ok _, s') => (true, s')
  | (Except.error _, s') => (false, s')

/-- Modelled from the spec: single-image save of the absent `ImageRepository`,
upsert semantics per §4.3, catching like the sibling stores. -/
def saveImage (faults : Nat → Bool) (row : ImageData) (s : Session) :
    Bool × Session :=
  match execSql faults (SqlOp.upsertImage row) (upsertImageDb row) s with
  | (Except.ok _, s') => (true, s')
  | (Except.error _, s') => (false, s')

/-- `TextSectionsRepository.save_all`: empty list short-circuits to True,
otherwise every section is saved and success requires all to succeed. -/
def saveAllSections (faults : Nat → Bool) (rows : List TextSection) (s : Session) :
    Bool × Session :=
  if rows.isEmpty then (true, s)
  else
    let r := rows.foldl (fun (acc : Nat × Session) sec =>
      let r2 := saveTextSection faults sec acc.2
      (acc.1 + (if r2.1 then 1 else 0), r2.2)) (0, s)
    (r.1 == rows.length, r.2)

/-- `PaperProcessor._save_all_tables`: saves each table, success requires all. -/
def saveAllTables (faults : Nat → Bool) (rows : List TableData) (s : Session) :
    Bool × Session :=
  let r := rows.foldl (fun (acc : Nat × Session) t =>
    let r2 := saveTable faults t acc.2
    (acc.1 + (if r2.1 then 1 else 0), r2.2)) (0, s)
  (r.1 == rows.length, r.2)

/-- Modelled from the spec: `ImageRepository.save_images` batch save of the
absent image store — best-effort batch whose overall success requires all
to succeed (§4.3). -/
def saveImages (faults : Nat → Bool) (rows : List ImageData) (s : Session) :
    Bool × Session :=
  let r := rows.foldl (fun (acc : Nat × Session) im =>
    let r2 := saveImage faults im acc.2
    (acc.1 + (if r2.1 then 1 else 0), r2.2)) (0, s)
  (r.1 == rows.length, r.2)

/-- `TextSectionsRepository.delete_by_paper_id`: catches and returns False. -/
def deleteSectionsByPaper (faults : Nat → Bool) (pid : Nat) (s : Session) :
    Bool × Session :=
  match execSql faults (SqlOp.deleteSectionsByPaper pid) (deleteSectionsDb pid) s with
  | (Except.ok _, s') => (true, s')
  | (Except.error _, s') => (false, s')

/-- `TableDataRepository.delete_tables_by_paper_id`: catches and returns False. -/
def deleteTablesByPaper (faults : Nat → Bool) (pid : Nat) (s : Session) :
    Bool × Session :=
  match execSql faults (SqlOp.deleteTablesByPaper pid) (deleteTablesDb pid) s with
  | (Except.ok _, s') => (true, s')
  | (Except.error _, s') => (false, s')

/-- Modelled from the spec: delete-by-parent of the absent image store (§4.3),
catching like the sibling stores. -/
def deleteImagesByPaper (faults : Nat → Bool) (pid : Nat) (s : Session) :
    Bool × Session :=
  match execSql faults (SqlOp.deleteImagesByPaper pid) (deleteImagesDb pid) s with
  | (Except.ok _, s') => (true, s')
  | (Except.error _, s') => (false, s')

/-- `count_sections_by_paper_id`: catches and returns 0. -/
def countSections (faults : Nat → Bool) (pid : Nat) (s : Session) : Nat × Session :=
  match execSql faults (SqlOp.countSectionsByPaper pid)
      (fun db => some ((db.sections.filter (fun r => r.paper_id == some pid)).length, db)) s with
  | (Except.ok n, s') => (n, s')
  | (Except.error _, s') => (0, s')

/-- `count_tables_by_paper_id`: catches and returns 0. -/
def countTables (faults : Nat → Bool) (pid : Nat) (s : Session) : Nat × Session :=
  match execSql faults (SqlOp.countTablesByPaper pid)
      (fun db => some ((db.tables.filter (fun r => r.paper_id == some pid)).length, db)) s with
  | (Except.ok n, s') => (n, s')
  | (Except.error _, s') => (0, s')

/-- Modelled from the spec: find-by-parent of the absent image store, catching
like the sibling `find_tables_by_paper_id` (errors yield an empty list). -/
def findImagesByPaper (faults : Nat → Bool) (pid : Nat) (s : Session) :
    List ImageData × Session :=
  match execSql faults (SqlOp.selectImagesByPaper pid)
      (fun db => some (db.images.filter (fun r => r.paper_id == some pid), db)) s with
  | (Except.ok l, s') => (l, s')
  | (Except.error _, s') => ([], s')

/-! ### The duplicate resolver and the ingestion pipeline
(`src/src/paper_processor.py`). -/

/-- The per-kind overwrite decision dictionary of `_check_paper_exists`. -/
structure Overwrite where
  metadata : Bool
  text_sections : Bool
  tables : Bool
  images : Bool
deriving Repr, DecidableEq

/-- `any(overwrite_choices.values())`. -/
def Overwrite.anyFlag (ow : Overwrite) : Bool :=
  ow.metadata || ow.text_sections || ow.tables || ow.images

/-- The 1-8 menu of `_check_paper_exists`; an invalid choice re-prompts
(`none` — the CLI loop itself is interaction plumbing, out of scope). -/
def choiceToOverwrite : Nat → Option Overwrite
  | 1 => some ⟨false, false, false, false⟩
  | 2 => some ⟨false, true, false, false⟩
  | 3 => some ⟨false, false, true, false⟩
  | 4 => some ⟨false, false, false, true⟩
  | 5 => some ⟨false, true, true, false⟩
  | 6 => some ⟨false, true, false, true⟩
  | 7 => some ⟨false, false, true, true⟩
  | 8 => some ⟨true, true, true, true⟩
  | _ => none

/-- Result of `_check_paper_exists`: the exists flag, the overwrite decision,
and the (possibly id-rewritten) metadata object. -/
structure ResolveResult where
  found : Bool
  ow : Overwrite
  md : PaperMetadata
deriving Repr, DecidableEq

/-- The DOI arm of `_check_paper_exists`: `if doi: find_by_doi(doi)` — the
lookup runs only when the DOI is truthy (neither None nor the empty string). -/
def doiLookup (faults : Nat → Bool) (md : PaperMetadata) (s : Session) :
    Except PyExc (Option PaperMetadata) × Session :=
  match md.doi with
  | some d => if d == "" then (Except.ok none, s) else findByDoi faults d s
  | none => (Except.ok none, s)

/-- The lookup sequence of `_check_paper_exists`: the exact-title lookup runs
only when the DOI arm found nothing and the title is truthy; a DOI match
short-circuits it. -/
def resolveLookup (faults : Nat → Bool) (md : PaperMetadata) (s : Session) :
    Except PyExc (Option PaperMetadata) × Session :=
  match doiLookup faults md s with
  | (Except.error e, s1) => (Except.error e, s1)
  | (Except.ok (some p), s1) => (Except.ok (some p), s1)
  | (Except.ok none, s1) =>
    if md.title == "" then (Except.ok none, s1) else findByTitle faults md.title s1

/-- `PaperProcessor._check_paper_exists`: on a match the stored paper's id is
written onto the metadata object and the existing-data counts are queried;
the operator's decision `choice` answers the overwrite prompt. -/
def checkPaperExists (faults : Nat → Bool) (md : PaperMetadata) (choice : Overwrite)
    (s : Session) : Except PyExc ResolveResult × Session :=
  match resolveLookup faults md s with
  | (Except.error e, s2) => (Except.error e, s2)
  | (Except.ok none, s2) =>
    (Except.ok ⟨false, ⟨true, true, true, true⟩, md⟩, s2)
  | (Except.ok (some p), s2) =>
    let md' := { md with id := p.id }
    let c1 := countSections faults p.id s2
    let c2 := countTables faults p.id c1.2
    let c3 := findImagesByPaper faults p.id c2.2
    (Except.ok ⟨true, choice, md'⟩, c3.2)

/-- The external inputs of one `process_paper` run: file presence, loaded
content, the extraction-gateway results (the sub-entity extractors receive the
resolved paper id), and the operator's overwrite decision. -/
structure RunInput where
  fileExists : Bool
  content : Option String
  metadata : Option PaperMetadata
  extractSections : Nat → List TextSection
  extractTables : Nat → List TableData
  extractImages : Nat → List ImageData
  choice : Overwrite

/-- `PaperProcessor._save_paper_metadata`: update when the paper exists,
insert otherwise; any exception is caught and reported as False. -/
def savePaperMetadata (faults : Nat → Bool) (md : PaperMetadata) (update_existing : Bool)
    (s : Session) : Bool × Session :=
  if update_existing then updatePaper faults md s
  else
    match savePaper faults md s with
    | (Except.ok _, s') => (true, s')
    | (Except.error _, s') => (false, s')

/-- Step 6 of `process_paper`: per-kind deletes before a selective overwrite,
in source order (sections, images, tables), keyed by the resolved metadata id. -/
def phaseDeletes (faults : Nat → Bool) (r : ResolveResult) (s : Session) : Session :=
  if r.found then
    let s1 := if r.ow.text_sections then (deleteSectionsByPaper faults r.md.id s).2 else s
    let s2 := if r.ow.images then (deleteImagesByPaper faults r.md.id s1).2 else s1
    if r.ow.tables then (deleteTablesByPaper faults r.md.id s2).2 else s2
  else s

/-- Step 7 of `process_paper`: insert or update the metadata row when needed;
a False from the save aborts the run (early return). -/
def phaseMetadata (faults : Nat → Bool) (r : ResolveResult) (s : Session) : Bool × Session :=
  if !r.found || r.ow.metadata then savePaperMetadata faults r.md r.found s
  else (true, s)

/-- Steps 8-9: extract and save text sections when needed (failures are
warnings only). -/
def phaseSections (faults : Nat → Bool) (inp : RunInput) (r : ResolveResult)
    (s : Session) : Session :=
  if !r.found || r.ow.text_sections then
    if (inp.extractSections r.md.id).isEmpty then s
    else (saveAllSections faults (inp.extractSections r.md.id) s).2
  else s

/-- Steps 10-11: extract and save tables when needed (failures are warnings only). -/
def phaseTables (faults : Nat → Bool) (inp : RunInput) (r : ResolveResult)
    (s : Session) : Session :=
  if !r.found || r.ow.tables then
    if (inp.extractTables r.md.id).isEmpty then s
    else (saveAllTables faults (inp.extractTables r.md.id) s).2
  else s

/-- Steps 12-13: extract and save images when needed (failures are warnings only). -/
def phaseImages (faults : Nat → Bool) (inp : RunInput) (r : ResolveResult)
    (s : Session) : Session :=
  if !r.found || r.ow.images then
    if (inp.extractImages r.md.id).isEmpty then s
    else (saveImages faults (inp.extractImages r.md.id) s).2
  else s

/-- `PaperProcessor.process_paper`: the full pipeline.  Early returns before a
commit leave the transaction to be discarded when the connection closes
(`committed` is unchanged); a propagating exception hits the `except` branch,
which rolls back; the happy path commits once at the end.  Schema setup (DDL)
is out of scope and touches no row store. -/
def processPaper (inp : RunInput) (faults : Nat → Bool) (pre : DB) : Bool × Session :=
  if !inp.fileExists then (false, openSession pre)
  else
    match inp.content with
    | none => (false, openSession pre)
    | some content =>
      if content == "" then (false, openSession pre)
      else
        match inp.metadata with
        | none => (false, openSession pre)
        | some md0 =>
          match checkPaperExists faults md0 inp.choice (openSession pre) with
          | (Except.error _, s1) => (false, rollbackTxn s1)
          | (Except.ok r, s1) =>
            if r.found && !r.ow.anyFlag then (true, s1)
            else
              match phaseMetadata faults r (phaseDeletes faults r s1) with
              | (false, s3) => (false, s3)
              | (true, s3) =>
                (true, commitTxn (phaseImages faults inp r
                  (phaseTables faults inp r (phaseSections faults inp r s3))))

/-! ### Session invariants. -/

/-- No injected faults. -/
def noFaults : Nat → Bool := fun _ => false

/-- Invariant of an open transaction: the committed state is still the pre
state, and if any statement issued so far was faulted, the transaction is
aborted. -/
def SessionInv (pre : DB) (faults : Nat → Bool) (s : Session) : Prop :=
  s.committed = pre ∧ ((∃ n, n < s.stmtIdx ∧ faults n = true) → s.aborted = true)

/-- `openSession` establishes the invariant. -/
theorem openSession_inv (pre : DB) (faults : Nat → Bool) :
    SessionInv pre faults (openSession pre) := by
  refine ⟨rfl, ?_⟩
  rintro ⟨n, hn, _⟩
  simp [openSession] at hn

/-- Every statement appends exactly its operation to the trace. -/
theorem execSql_trace {α : Type} (faults : Nat → Bool) (op : SqlOp)
    (apply : DB → Option (α × DB)) (s : Session) :
    (execSql faults op apply s).2.trace = s.trace ++ [op] := by
  cases ha : s.aborted <;> cases hfa : faults s.stmtIdx <;> cases hap : apply s.work <;>
    simp [execSql, ha, hfa, hap]

/-- Every statement bumps the statement counter by one. -/
theorem execSql_stmtIdx {α : Type} (faults : Nat → Bool) (op : SqlOp)
    (apply : DB → Option (α × DB)) (s : Session) :
    (execSql faults op apply s).2.stmtIdx = s.stmtIdx + 1 := by
  cases ha : s.aborted <;> cases hfa : faults s.stmtIdx <;> cases hap : apply s.work <;>
    simp [execSql, ha, hfa, hap]

/-- The committed state is never touched by a statement. -/
theorem execSql_committed {α : Type} (faults : Nat → Bool) (op : SqlOp)
    (apply : DB → Option (α × DB)) (s : Session) :
    (execSql faults op apply s).2.committed = s.committed := by
  cases ha : s.aborted <;> cases hfa : faults s.stmtIdx <;> cases hap : apply s.work <;>
    simp [execSql, ha, hfa, hap]

/-- Every single statement preserves the invariant. -/
theorem execSql_inv {α : Type} {pre : DB} (faults : Nat → Bool) (op : SqlOp)
    (apply : DB → Option (α × DB)) (s : Session) (h : SessionInv pre faults s) :
    SessionInv pre faults (execSql faults op apply s).2 := by
  obtain ⟨hc, hf⟩ := h
  refine ⟨by rw [execSql_committed]; exact hc, ?_⟩
  rintro ⟨n, hn, hfn⟩
  rw [execSql_stmtIdx] at hn
  cases ha : s.aborted
  case true => cases hfa : faults s.stmtIdx <;> cases hap : apply s.work <;>
    simp [execSql, ha, hfa, hap]
  case false =>
    rcases Nat.lt_succ_iff_lt_or_eq.mp hn with h' | rfl
    · have := hf ⟨n, h', hfn⟩
      rw [ha] at this
      exact absurd this (by simp)
    · cases hap : apply s.work <;> simp [execSql, ha, hfn, hap]

/-! ### The catching wrappers do not change the session beyond their statement. -/

/-- `updatePaper` only runs its one statement. -/
theorem updatePaper_snd (faults : Nat → Bool) (row : PaperMetadata) (s : Session) :
    (updatePaper faults row s).2 =
      (execSql faults (SqlOp.updatePaper row) (updatePaperDb row) s).2 := by
  unfold updatePaper
  cases hx : execSql faults (SqlOp.updatePaper row) (updatePaperDb row) s with
  | mk e s' => cases e <;> simp

/-- `saveTextSection` only runs its one statement. -/
theorem saveTextSection_snd (faults : Nat → Bool) (row : TextSection) (s : Session) :
    (saveTextSection faults row s).2 =
      (execSql faults (SqlOp.upsertSection row) (upsertSectionDb row) s).2 := by
  unfold saveTextSection
  cases hx : execSql faults (SqlOp.upsertSection row) (upsertSectionDb row) s with
  | mk e s' => cases e <;> simp

/-- `saveTable` only runs its one statement. -/
theorem saveTable_snd (faults : Nat → Bool) (row : TableData) (s : Session) :
    (saveTable faults row s).2 =
      (execSql faults (SqlOp.insertTable row) (insertTableDb row) s).2 := by
  unfold saveTable
  cases hx : execSql faults (SqlOp.insertTable row) (insertTableDb row) s with
  | mk e s' => cases e <;> simp

/-- `saveImage` only runs its one statement. -/
theorem saveImage_snd (faults : Nat → Bool) (row : ImageData) (s : Session) :
    (saveImage faults row s).2 =
      (execSql faults (SqlOp.upsertImage row) (upsertImageDb row) s).2 := by
  unfold saveImage
  cases hx : execSql faults (SqlOp.upsertImage row) (upsertImageDb row) s with
  | mk e s' => cases e <;> simp

/-- `deleteSectionsByPaper` only runs its one statement. -/
theorem deleteSectionsByPaper_snd (faults : Nat → Bool) (pid : Nat) (s : Session) :
    (deleteSectionsByPaper faults pid s).2 =
      (execSql faults (SqlOp.deleteSectionsByPaper pid) (deleteSectionsDb pid) s).2 := by
  unfold deleteSectionsByPaper
  cases hx : execSql faults (SqlOp.deleteSectionsByPaper pid) (deleteSectionsDb pid) s with
  | mk e s' => cases e <;> simp

/-- `deleteTablesByPaper` only runs its one statement. -/
theorem deleteTablesByPaper_snd (faults : Nat → Bool) (pid : Nat) (s : Session) :
    (deleteTablesByPaper faults pid s).2 =
      (execSql faults (SqlOp.deleteTablesByPaper pid) (deleteTablesDb pid) s).2 := by
  unfold deleteTablesByPaper
  cases hx : execSql faults (SqlOp.deleteTablesByPaper pid) (deleteTablesDb pid) s with
  | mk e s' => cases e <;> simp

/-- `deleteImagesByPaper` only runs its one statement. -/
theorem deleteImagesByPaper_snd (faults : Nat → Bool) (pid : Nat) (s : Session) :
    (deleteImagesByPaper faults pid s).2 =
      (execSql faults (SqlOp.deleteImagesByPaper pid) (deleteImagesDb pid) s).2 := by
  unfold deleteImagesByPaper
  cases hx : execSql faults (SqlOp.deleteImagesByPaper pid) (deleteImagesDb pid) s with
  | mk e s' => cases e <;> simp

/-- `countSections` only runs its one statement. -/
theorem countSections_snd (faults : Nat → Bool) (pid : Nat) (s : Session) :
    (countSections faults pid s).2 = (execSql faults (SqlOp.countSectionsByPaper pid)
      (fun db => some ((db.sections.filter (fun r => r.paper_id == some pid)).length, db)) s).2 := by
  unfold countSections
  cases hx : execSql faults (SqlOp.countSectionsByPaper pid)
      (fun db => some ((db.sections.filter (fun r => r.paper_id == some pid)).length, db)) s with
  | mk e s' => cases e <;> simp

/-- `countTables` only runs its one statement. -/
theorem countTables_snd (faults : Nat → Bool) (pid : Nat) (s : Session) :
    (countTables faults pid s).2 = (execSql faults (SqlOp.countTablesByPaper pid)
      (fun db => some ((db.tables.filter (fun r => r.paper_id == some pid)).length, db)) s).2 := by
  unfold countTables
  cases hx : execSql faults (SqlOp.countTablesByPaper pid)
      (fun db => some ((db.tables.filter (fun r => r.paper_id == some pid)).length, db)) s with
  | mk e s' => cases e <;> simp

/-- `findImagesByPaper` only runs its one statement. -/
theorem findImagesByPaper_snd (faults : Nat → Bool) (pid : Nat) (s : Session) :
    (findImagesByPaper faults pid s).2 = (execSql faults (SqlOp.selectImagesByPaper pid)
      (fun db => some (db.images.filter (fun r => r.paper_id == some pid), db)) s).2 := by
  unfold findImagesByPaper
  cases hx : execSql faults (SqlOp.selectImagesByPaper pid)
      (fun db => some (db.images.filter (fun r => r.paper_id == some pid), db)) s with
  | mk e s' => cases e <;> simp

/-! ### The invariant is preserved by every phase of the pipeline. -/

/-- Folding invariant-preserving steps preserves the invariant. -/
theorem foldl_inv {β : Type} {pre : DB} (faults : Nat → Bool)
    (step : Nat × Session → β → Nat × Session)
    (hstep : ∀ acc b, SessionInv pre faults acc.2 → SessionInv pre faults (step acc b).2)
    (l : List β) (acc : Nat × Session) (h : SessionInv pre faults acc.2) :
    SessionInv pre faults (l.foldl step acc).2 := by
  induction l generalizing acc with
  | nil => exact h
  | cons b l ih => exact ih (step acc b) (hstep acc b h)

/-- Both branches invariant gives the conditional invariant. -/
theorem inv_ite {pre : DB} {faults : Nat → Bool} (b : Bool) (s1 s2 : Session)
    (h1 : SessionInv pre faults s1) (h2 : SessionInv pre faults s2) :
    SessionInv pre faults (if b then s1 else s2) := by
  cases b
  · simpa using h2
  · simpa using h1

/-- `saveAllSections` preserves the invariant. -/
theorem saveAllSections_inv {pre : DB} (faults : Nat → Bool) (rows : List TextSection)
    (s : Session) (h : SessionInv pre faults s) :
    SessionInv pre faults (saveAllSections faults rows s).2 := by
  unfold saveAllSections
  split
  · exact h
  · exact foldl_inv faults _ (fun acc b hacc => by
      show SessionInv pre faults (saveTextSection faults b acc.2).2
      rw [saveTextSection_snd]
      exact execSql_inv _ _ _ _ hacc) rows (0, s) h

/-- `saveAllTables` preserves the invariant. -/
theorem saveAllTables_inv {pre : DB} (faults : Nat → Bool) (rows : List TableData)
    (s : Session) (h : SessionInv pre faults s) :
    SessionInv pre faults (saveAllTables faults rows s).2 := by
  unfold saveAllTables
  exact foldl_inv faults _ (fun acc b hacc => by
    show SessionInv pre faults (saveTable faults b acc.2).2
    rw [saveTable_snd]
    exact execSql_inv _ _ _ _ hacc) rows (0, s) h

/-- `saveImages` preserves the invariant. -/
theorem saveImages_inv {pre : DB} (faults : Nat → Bool) (rows : List ImageData)
    (s : Session) (h : SessionInv pre faults s) :
    SessionInv pre faults (saveImages faults rows s).2 := by
  unfold saveImages
  exact foldl_inv faults _ (fun acc b hacc => by
    show SessionInv pre faults (saveImage faults b acc.2).2
    rw [saveImage_snd]
    exact execSql_inv _ _ _ _ hacc) rows (0, s) h

/-- `phaseDeletes` preserves the invariant. -/
theorem phaseDeletes_inv {pre : DB} (faults : Nat → Bool) (r : ResolveResult) (s : Session)
    (h : SessionInv pre faults s) : SessionInv pre faults (phaseDeletes faults r s) := by
  have h1 : SessionInv pre faults
      (if r.ow.text_sections then (deleteSectionsByPaper faults r.md.id s).2 else s) :=
    inv_ite _ _ _ (by rw [deleteSectionsByPaper_snd]; exact execSql_inv _ _ _ _ h) h
  have h2 : SessionInv pre faults
      (if r.ow.images then (deleteImagesByPaper faults r.md.id
        (if r.ow.text_sections then (deleteSectionsByPaper faults r.md.id s).2 else s)).2
      else (if r.ow.text_sections then (deleteSectionsByPaper faults r.md.id s).2 else s)) :=
    inv_ite _ _ _ (by rw [deleteImagesByPaper_snd]; exact execSql_inv _ _ _ _ h1) h1
  have h3 : SessionInv pre faults (phaseDeletes faults r s) := by
    unfold phaseDeletes
    exact inv_ite r.found _ _
      (inv_ite _ _ _ (by rw [deleteTablesByPaper_snd]; exact execSql_inv _ _ _ _ h2) h2) h
  exact h3

/-- `savePaperMetadata` preserves the invariant. -/
theorem savePaperMetadata_inv {pre : DB} (faults : Nat → Bool) (md : PaperMetadata)
    (u : Bool) (s : Session) (h : SessionInv pre faults s) :
    SessionInv pre faults (savePaperMetadata faults md u s).2 := by
  unfold savePaperMetadata
  split
  · rw [updatePaper_snd]
    exact execSql_inv _ _ _ _ h
  · split
    · rename_i v s' heq
      have hv : (savePaper faults md s).2 = s' := by rw [heq]
      rw [← hv]
      unfold savePaper
      exact execSql_inv _ _ _ _ h
    · rename_i v s' heq
      have hv : (savePaper faults md s).2 = s' := by rw [heq]
      rw [← hv]
      unfold savePaper
      exact execSql_inv _ _ _ _ h

/-- `phaseMetadata` preserves the invariant. -/
theorem phaseMetadata_inv {pre : DB} (faults : Nat → Bool) (r : ResolveResult) (s : Session)
    (h : SessionInv pre faults s) : SessionInv pre faults (phaseMetadata faults r s).2 := by
  unfold phaseMetadata
  split
  · exact savePaperMetadata_inv _ _ _ _ h
  · exact h

/-- `phaseSections` preserves the invariant. -/
theorem phaseSections_inv {pre : DB} (faults : Nat → Bool) (inp : RunInput)
    (r : ResolveResult) (s : Session) (h : SessionInv pre faults s) :
    SessionInv pre faults (phaseSections faults inp r s) := by
  unfold phaseSections
  split
  · split
    · exact h
    · exact saveAllSections_inv _ _ _ h
  · exact h

/-- `phaseTables` preserves the invariant. -/
theorem phaseTables_inv {pre : DB} (faults : Nat → Bool) (inp : RunInput)
    (r : ResolveResult) (s : Session) (h : SessionInv pre faults s) :
    SessionInv pre faults (phaseTables faults inp r s) := by
  unfold phaseTables
  split
  · split
    · exact h
    · exact saveAllTables_inv _ _ _ h
  · exact h

/-- `phaseImages` preserves the invariant. -/
theorem phaseImages_inv {pre : DB} (faults : Nat → Bool) (inp : RunInput)
    (r : ResolveResult) (s : Session) (h : SessionInv pre faults s) :
    SessionInv pre faults (phaseImages faults inp r s) := by
  unfold phaseImages
  split
  · split
    · exact h
    · exact saveImages_inv _ _ _ h
  · exact h

/-- The DOI arm preserves the invariant. -/
theorem doiLookup_inv {pre : DB} (faults : Nat → Bool) (md : PaperMetadata)
    (s : Session) (h : SessionInv pre faults s) :
    SessionInv pre faults (doiLookup faults md s).2 := by
  unfold doiLookup
  split
  · split
    · exact h
    · unfold findByDoi
      exact execSql_inv _ _ _ _ h
  · exact h

/-- The whole lookup sequence preserves the invariant. -/
theorem resolveLookup_inv {pre : DB} (faults : Nat → Bool) (md : PaperMetadata)
    (s : Session) (h : SessionInv pre faults s) :
    SessionInv pre faults (resolveLookup faults md s).2 := by
  have hd : SessionInv pre faults (doiLookup faults md s).2 := doiLookup_inv _ _ _ h
  unfold resolveLookup
  split
  · rename_i e s1 heq
    have : (doiLookup faults md s).2 = s1 := by rw [heq]
    rwa [this] at hd
  · rename_i p s1 heq
    have : (doiLookup faults md s).2 = s1 := by rw [heq]
    rwa [this] at hd
  · rename_i s1 heq
    have hx : (doiLookup faults md s).2 = s1 := by rw [heq]
    rw [hx] at hd
    split
    · exact hd
    · unfold findByTitle
      exact execSql_inv _ _ _ _ hd

/-- `_check_paper_exists` preserves the invariant. -/
theorem checkPaperExists_inv {pre : DB} (faults : Nat → Bool) (md : PaperMetadata)
    (choice : Overwrite) (s : Session) (h : SessionInv pre faults s) :
    SessionInv pre faults (checkPaperExists faults md choice s).2 := by
  have hr : SessionInv pre faults (resolveLookup faults md s).2 := resolveLookup_inv _ _ _ h
  unfold checkPaperExists
  split
  · rename_i e s2 heq
    have : (resolveLookup faults md s).2 = s2 := by rw [heq]
    rwa [this] at hr
  · rename_i s2 heq
    have : (resolveLookup faults md s).2 = s2 := by rw [heq]
    rwa [this] at hr
  · rename_i p s2 heq
    have hx : (resolveLookup faults md s).2 = s2 := by rw [heq]
    rw [hx] at hr
    have hc1 : SessionInv pre faults (countSections faults p.id s2).2 := by
      rw [countSections_snd]
      exact execSql_inv _ _ _ _ hr
    have hc2 : SessionInv pre faults
        (countTables faults p.id (countSections faults p.id s2).2).2 := by
      rw [countTables_snd]
      exact execSql_inv _ _ _ _ hc1
    show SessionInv pre faults (findImagesByPaper faults p.id
      (countTables faults p.id (countSections faults p.id s2).2).2).2
    rw [findImagesByPaper_snd]
    exact execSql_inv _ _ _ _ hc2

/-- A faulted statement among those issued forces the final COMMIT to act as a
ROLLBACK, leaving the committed state untouched. -/
theorem commitTxn_committed_of_fault {pre : DB} {faults : Nat → Bool} {s : Session}
    (h : SessionInv pre faults s) (hf : ∃ n, n < s.stmtIdx ∧ faults n = true) :
    (commitTxn s).committed = pre := by
  have ha := h.2 hf
  unfold commitTxn
  rw [ha]
  simpa using h.1

/-- `commitTxn` does not change the statement counter. -/
theorem commitTxn_stmtIdx (s : Session) : (commitTxn s).stmtIdx = s.stmtIdx := by
  unfold commitTxn
  split <;> rfl

/-- C1: in any `process_paper` run in which some statement of the open
transaction raises an injected error — in particular a failure while
persisting one of the new sub-entities mid-Persist — the post-run committed
state is exactly the pre-run state: no new sections, tables or images are
committed.  (Failed saves are caught and logged, but the failed statement
aborts the PostgreSQL transaction, so the final COMMIT acts as a ROLLBACK;
exception paths roll back explicitly; early returns never commit.) -/
theorem processPaper_rollback_on_error (inp : RunInput) (faults : Nat → Bool) (pre : DB)
    (h : ∃ n, n < (processPaper inp faults pre).2.stmtIdx ∧ faults n = true) :
    (processPaper inp faults pre).2.committed = pre := by
  rcases hp : processPaper inp faults pre with ⟨b, sf⟩
  rw [hp] at h
  simp only at h ⊢
  unfold processPaper at hp
  have hinv0 := openSession_inv pre faults
  split at hp
  · simp only [Prod.mk.injEq] at hp
    obtain ⟨_, hsf⟩ := hp
    subst hsf
    rfl
  · split at hp
    · simp only [Prod.mk.injEq] at hp
      obtain ⟨_, hsf⟩ := hp
      subst hsf
      rfl
    · split at hp
      · simp only [Prod.mk.injEq] at hp
        obtain ⟨_, hsf⟩ := hp
        subst hsf
        rfl
      · split at hp
        · simp only [Prod.mk.injEq] at hp
          obtain ⟨_, hsf⟩ := hp
          subst hsf
          rfl
        · rename_i md0 hmd0
          split at hp
          · rename_i e s1 heq
            simp only [Prod.mk.injEq] at hp
            obtain ⟨_, hsf⟩ := hp
            subst hsf
            have hinv1 := checkPaperExists_inv faults md0 inp.choice (openSession pre) hinv0
            rw [heq] at hinv1
            exact hinv1.1
          · rename_i r s1 heq
            have hinv1 : SessionInv pre faults s1 := by
              have := checkPaperExists_inv faults md0 inp.choice (openSession pre) hinv0
              rwa [heq] at this
            split at hp
            · simp only [Prod.mk.injEq] at hp
              obtain ⟨_, hsf⟩ := hp
              subst hsf
              exact hinv1.1
            · have hinv2 : SessionInv pre faults (phaseDeletes faults r s1) :=
                phaseDeletes_inv faults r s1 hinv1
              split at hp
              · rename_i s3 heq2
                simp only [Prod.mk.injEq] at hp
                obtain ⟨_, hsf⟩ := hp
                subst hsf
                have hinv3 := phaseMetadata_inv faults r (phaseDeletes faults r s1) hinv2
                rw [heq2] at hinv3
                exact hinv3.1
              · rename_i s3 heq2
                simp only [Prod.mk.injEq] at hp
                obtain ⟨_, hsf⟩ := hp
                subst hsf
                have hinv3 : SessionInv pre faults s3 := by
                  have := phaseMetadata_inv faults r (phaseDeletes faults r s1) hinv2
                  rwa [heq2] at this
                have hinv6 : SessionInv pre faults
                    (phaseImages faults inp r (phaseTables faults inp r
                      (phaseSections faults inp r s3))) :=
                  phaseImages_inv _ _ _ _ (phaseTables_inv _ _ _ _
                    (phaseSections_inv _ _ _ _ hinv3))
                rw [commitTxn_stmtIdx] at h
                exact commitTxn_committed_of_fault hinv6 h

/-- Concrete run for the C1 witness: a fresh paper with three extracted
tables, no sections, no images, against an empty store. -/
def wPaper : PaperMetadata :=
  ⟨1, "T", [], none, none, some "10.1/x", none, none, none, none, [], "f.md", "t0",
   [], none, none, none, none, []⟩

/-- A concrete extracted table for the C1 witness. -/
def wTable (i n : Nat) : TableData :=
  ⟨i, some 1, n, "t", "|x|", "s", "c", "f", [], 1, 1, "t0"⟩

/-- The C1 witness run input. -/
def wInput : RunInput :=
  { fileExists := true
    content := some "x"
    metadata := some wPaper
    extractSections := fun _ => []
    extractTables := fun _ => [wTable 11 1, wTable 12 2, wTable 13 3]
    extractImages := fun _ => []
    choice := ⟨false, false, false, false⟩ }

/-- Fault injection for the C1 witness: statement 4 — the INSERT of the 2nd of
the 3 new tables (after the two duplicate lookups and the metadata INSERT) —
raises. -/
def wFaults : Nat → Bool := fun n => n == 4

/-- The empty pre-run store for the C1 witness. -/
def wPre : DB := ⟨[], [], [], []⟩

/-- Witness for C1: in the concrete run the fault hits inside the transaction,
and the committed post-state equals the pre-state. -/
theorem processPaper_rollback_on_error_witness :
    (∃ n, n < (processPaper wInput wFaults wPre).2.stmtIdx ∧ wFaults n = true) ∧
      (processPaper wInput wFaults wPre).2.committed = wPre :=
  have hex : ∃ n, n < (processPaper wInput wFaults wPre).2.stmtIdx ∧ wFaults n = true :=
    ⟨4, by decide, by decide⟩
  ⟨hex, processPaper_rollback_on_error wInput wFaults wPre hex⟩

/-! ### Exact statement equations, and the save-on-conflict semantics. -/

/-- A statement that succeeds, as one record equation. -/
theorem execSql_ok {α : Type} (faults : Nat → Bool) (op : SqlOp)
    (apply : DB → Option (α × DB)) (s : Session) (a : α) (db : DB)
    (ha : s.aborted = false) (hf : faults s.stmtIdx = false)
    (hap : apply s.work = some (a, db)) :
    execSql faults op apply s = (Except.ok a,
      { s with work := db, trace := s.trace ++ [op], stmtIdx := s.stmtIdx + 1 }) := by
  simp [execSql, ha, hf, hap]

/-- A statement whose semantics raises an integrity error, as one record
equation: no data change, transaction aborted. -/
theorem execSql_violation {α : Type} (faults : Nat → Bool) (op : SqlOp)
    (apply : DB → Option (α × DB)) (s : Session)
    (ha : s.aborted = false) (hf : faults s.stmtIdx = false)
    (hap : apply s.work = none) :
    execSql faults op apply s = (Except.error PyExc.dbError,
      { s with aborted := true, trace := s.trace ++ [op], stmtIdx := s.stmtIdx + 1 }) := by
  simp [execSql, ha, hf, hap]

/-- Any failing execute leaves the working data untouched. -/
theorem execSql_err_work {α : Type} (faults : Nat → Bool) (op : SqlOp)
    (apply : DB → Option (α × DB)) (s : Session) (hnone : apply s.work = none) :
    (execSql faults op apply s).2.work = s.work := by
  cases ha : s.aborted <;> cases hf : faults s.stmtIdx <;> simp [execSql, ha, hf, hnone]

/-- A table INSERT whose id already exists always violates (the row is
rejected by the PK, the FK, or the NOT NULL check before any change). -/
theorem insertTableDb_none_of_dup (t : TableData) (db : DB)
    (hdup : db.tables.any (fun r => r.id == t.id) = true) :
    insertTableDb t db = none := by
  unfold insertTableDb
  rcases hp : t.paper_id with _ | pid
  · rfl
  · by_cases hfk : db.papers.any (fun p => p.id == pid) = true <;> simp [hfk, hdup]

/-- A section upsert on an existing id replaces that row's fields. -/
theorem upsertSectionDb_dup (sec : TextSection) (db : DB) (pid : Nat)
    (hpid : sec.paper_id = some pid)
    (hfk : db.papers.any (fun p => p.id == pid) = true)
    (hdup : db.sections.any (fun r => r.id == sec.id) = true) :
    upsertSectionDb sec db = some ((),
      { db with sections := db.sections.map (fun r => if r.id == sec.id then sec else r) }) := by
  unfold upsertSectionDb
  rw [hpid]
  simp [hfk, hdup]

/-- An image upsert on an existing id replaces that row's fields. -/
theorem upsertImageDb_dup (im : ImageData) (db : DB) (pid : Nat)
    (hpid : im.paper_id = some pid)
    (hfk : db.papers.any (fun p => p.id == pid) = true)
    (hdup : db.images.any (fun r => r.id == im.id) = true) :
    upsertImageDb im db = some ((),
      { db with images := db.images.map (fun r => if r.id == im.id then im else r) }) := by
  unfold upsertImageDb
  rw [hpid]
  simp [hfk, hdup]

/-- A concrete stored section for witnesses. -/
def wSection (i n : Nat) : TextSection :=
  ⟨i, some 1, "sec", "body", "sum", [], n, 1, 2, "t0"⟩

/-- A concrete stored image for witnesses. -/
def wImage (i n : Nat) : ImageData :=
  ⟨i, some 1, n, "alt", "ZGF0YQ", "png", "sum", "ga", "", "ctx", [], "t0"⟩

/-- C3, counterexample: saving a table whose id already exists in the store is
a hard failure, not an upsert — `save_table` reports False, the stored rows
are unchanged, and the transaction is aborted. -/
theorem table_resave_counterexample :
    (saveTable noFaults (wTable 5 1) (openSession ⟨[wPaper], [], [wTable 5 1], []⟩)).1 = false ∧
      (saveTable noFaults (wTable 5 1) (openSession ⟨[wPaper], [], [wTable 5 1], []⟩)).2.work
        = ⟨[wPaper], [], [wTable 5 1], []⟩ ∧
      (saveTable noFaults (wTable 5 1)
        (openSession ⟨[wPaper], [], [wTable 5 1], []⟩)).2.aborted = true := by
  refine ⟨by decide, by decide, by decide⟩

/-- C3 (amended): on an id conflict, section saves (ON CONFLICT (id) DO
UPDATE) and image saves (spec-modelled store) succeed with update semantics,
replacing the existing row's fields; table saves, whose INSERT carries no ON
CONFLICT clause, are a hard failure: `save_table` returns False and the
stored rows are unchanged. -/
theorem save_conflict_semantics :
    (∀ (faults : Nat → Bool) (s : Session) (sec : TextSection) (pid : Nat),
      s.aborted = false → faults s.stmtIdx = false →
      sec.paper_id = some pid → s.work.papers.any (fun p => p.id == pid) = true →
      s.work.sections.any (fun r => r.id == sec.id) = true →
      (saveTextSection faults sec s).1 = true ∧
        (saveTextSection faults sec s).2.work.sections =
          s.work.sections.map (fun r => if r.id == sec.id then sec else r)) ∧
    (∀ (faults : Nat → Bool) (s : Session) (im : ImageData) (pid : Nat),
      s.aborted = false → faults s.stmtIdx = false →
      im.paper_id = some pid → s.work.papers.any (fun p => p.id == pid) = true →
      s.work.images.any (fun r => r.id == im.id) = true →
      (saveImage faults im s).1 = true ∧
        (saveImage faults im s).2.work.images =
          s.work.images.map (fun r => if r.id == im.id then im else r)) ∧
    (∀ (faults : Nat → Bool) (s : Session) (t : TableData),
      s.work.tables.any (fun r => r.id == t.id) = true →
      (saveTable faults t s).1 = false ∧ (saveTable faults t s).2.work = s.work) := by
  refine ⟨?_, ?_, ?_⟩
  · intro faults s sec pid ha hf hpid hfk hdup
    have he := execSql_ok faults (SqlOp.upsertSection sec) (upsertSectionDb sec) s () _
      ha hf (upsertSectionDb_dup sec s.work pid hpid hfk hdup)
    unfold saveTextSection
    rw [he]
    exact ⟨rfl, rfl⟩
  · intro faults s im pid ha hf hpid hfk hdup
    have he := execSql_ok faults (SqlOp.upsertImage im) (upsertImageDb im) s () _
      ha hf (upsertImageDb_dup im s.work pid hpid hfk hdup)
    unfold saveImage
    rw [he]
    exact ⟨rfl, rfl⟩
  · intro faults s t hdup
    have hnone := insertTableDb_none_of_dup t s.work hdup
    constructor
    · unfold saveTable
      cases hx : execSql faults (SqlOp.insertTable t) (insertTableDb t) s with
      | mk e s' =>
        cases e with
        | ok v =>
          -- a successful execute contradicts the violating semantics
          exfalso
          cases ha : s.aborted <;> cases hf : faults s.stmtIdx <;>
            simp [execSql, ha, hf, hnone] at hx
        | error _ => simp
    · rw [saveTable_snd]
      exact execSql_err_work _ _ _ _ hnone

/-- Witness for the amended C3 theorem on a concrete store holding one
section, one image and one table. -/
theorem save_conflict_semantics_witness :
    ((saveTextSection noFaults (wSection 21 2)
        (openSession ⟨[wPaper], [wSection 21 1], [], []⟩)).1 = true ∧
      (saveTextSection noFaults (wSection 21 2)
        (openSession ⟨[wPaper], [wSection 21 1], [], []⟩)).2.work.sections =
          [wSection 21 1].map (fun r => if r.id == 21 then wSection 21 2 else r)) ∧
    ((saveImage noFaults (wImage 31 2)
        (openSession ⟨[wPaper], [], [], [wImage 31 1]⟩)).1 = true ∧
      (saveImage noFaults (wImage 31 2)
        (openSession ⟨[wPaper], [], [], [wImage 31 1]⟩)).2.work.images =
          [wImage 31 1].map (fun r => if r.id == 31 then wImage 31 2 else r)) ∧
    ((saveTable noFaults (wTable 5 2) (openSession ⟨[wPaper], [], [wTable 5 1], []⟩)).1 = false ∧
      (saveTable noFaults (wTable 5 2)
        (openSession ⟨[wPaper], [], [wTable 5 1], []⟩)).2.work = ⟨[wPaper], [], [wTable 5 1], []⟩) :=
  ⟨save_conflict_semantics.1 noFaults (openSession ⟨[wPaper], [wSection 21 1], [], []⟩)
      (wSection 21 2) 1 (by decide) (by decide) (by decide) (by decide) (by decide),
    save_conflict_semantics.2.1 noFaults (openSession ⟨[wPaper], [], [], [wImage 31 1]⟩)
      (wImage 31 2) 1 (by decide) (by decide) (by decide) (by decide) (by decide),
    save_conflict_semantics.2.2 noFaults (openSession ⟨[wPaper], [], [wTable 5 1], []⟩)
      (wTable 5 2) (by decide)⟩

/-! ### Exact behaviour of the duplicate resolver. -/

/-- A falsy DOI (absent or empty) skips the DOI lookup entirely. -/
theorem doiLookup_falsy (md : PaperMetadata) (s : Session)
    (h : md.doi = none ∨ md.doi = some "") :
    doiLookup noFaults md s = (Except.ok none, s) := by
  rcases h with h | h <;> simp [doiLookup, h]

/-- A truthy DOI with no stored match: the lookup runs and returns nothing. -/
theorem doiLookup_nomatch (md : PaperMetadata) (s : Session) (d : String)
    (hdoi : md.doi = some d) (hde : (d == "") = false) (ha : s.aborted = false)
    (hfind : s.work.papers.find? (fun r => r.doi == some d) = none) :
    doiLookup noFaults md s = (Except.ok none,
      { s with trace := s.trace ++ [SqlOp.selectPaperByDoi d], stmtIdx := s.stmtIdx + 1 }) := by
  simp [doiLookup, findByDoi, findByDoiDb, execSql, noFaults, hdoi, hde, ha, hfind]

/-- The resolver when a stored paper matches the (truthy) DOI: the match is
reported from the DOI lookup alone, the stored id is written onto the
metadata, the three count queries run, and no title lookup is issued. -/
theorem checkPaperExists_doi_found (md : PaperMetadata) (choice : Overwrite) (pre : DB)
    (d : String) (p : PaperMetadata)
    (hdoi : md.doi = some d) (hde : (d == "") = false)
    (hfind : pre.papers.find? (fun r => r.doi == some d) = some p) :
    checkPaperExists noFaults md choice (openSession pre) =
      (Except.ok ⟨true, choice, { md with id := p.id }⟩,
       { committed := pre, work := pre, aborted := false,
         trace := [SqlOp.selectPaperByDoi d, SqlOp.countSectionsByPaper p.id,
                   SqlOp.countTablesByPaper p.id, SqlOp.selectImagesByPaper p.id],
         stmtIdx := 4 }) := by
  simp [checkPaperExists, resolveLookup, doiLookup, findByDoi, findByDoiDb,
    countSections, countTables, findImagesByPaper, execSql, openSession, noFaults,
    hdoi, hde, hfind]

/-- The resolver when the DOI arm found nothing and a stored paper matches the
exact (truthy) title. -/
theorem checkPaperExists_title_found (md : PaperMetadata) (choice : Overwrite)
    (s s1 : Session) (p : PaperMetadata)
    (hd : doiLookup noFaults md s = (Except.ok none, s1))
    (ha1 : s1.aborted = false) (hte : (md.title == "") = false)
    (hfind : s1.work.papers.find? (fun r => r.title == md.title) = some p) :
    checkPaperExists noFaults md choice s =
      (Except.ok ⟨true, choice, { md with id := p.id }⟩,
       { s1 with
         trace := s1.trace ++ [SqlOp.selectPaperByTitle md.title,
           SqlOp.countSectionsByPaper p.id, SqlOp.countTablesByPaper p.id,
           SqlOp.selectImagesByPaper p.id],
         stmtIdx := s1.stmtIdx + 4 }) := by
  simp only [checkPaperExists, resolveLookup, hd]
  simp [findByTitle, findByTitleDb, countSections, countTables, findImagesByPaper,
    execSql, noFaults, ha1, hte, hfind]

/-- The resolver when the DOI arm found nothing and the (truthy) title matches
no stored paper: no duplicate is reported and everything is marked for
processing. -/
theorem checkPaperExists_title_nomatch (md : PaperMetadata) (choice : Overwrite)
    (s s1 : Session)
    (hd : doiLookup noFaults md s = (Except.ok none, s1))
    (ha1 : s1.aborted = false) (hte : (md.title == "") = false)
    (hfind : s1.work.papers.find? (fun r => r.title == md.title) = none) :
    checkPaperExists noFaults md choice s =
      (Except.ok ⟨false, ⟨true, true, true, true⟩, md⟩,
       { s1 with
         trace := s1.trace ++ [SqlOp.selectPaperByTitle md.title],
         stmtIdx := s1.stmtIdx + 1 }) := by
  simp only [checkPaperExists, resolveLookup, hd]
  simp [findByTitle, findByTitleDb, execSql, noFaults, ha1, hte, hfind]

/-- C5: duplicate-detection precedence.
(1) With a truthy DOI that matches a stored paper, the resolver reports the
match from the DOI alone and never issues a title lookup.
(2) With a falsy DOI and a truthy title the title lookup is issued, and
(3) likewise when the truthy DOI found no match; so the title is consulted
exactly when no DOI match was found.
(4) The title lookup used is exact string equality (case-sensitive), not
fuzzy: any paper it returns carries literally the queried title. -/
theorem resolver_doi_precedence :
    (∀ (pre : DB) (md : PaperMetadata) (choice : Overwrite) (d : String) (p : PaperMetadata),
      md.doi = some d → (d == "") = false →
      pre.papers.find? (fun r => r.doi == some d) = some p →
      (checkPaperExists noFaults md choice (openSession pre)).1 =
        Except.ok ⟨true, choice, { md with id := p.id }⟩ ∧
      ∀ t, SqlOp.selectPaperByTitle t ∉
        (checkPaperExists noFaults md choice (openSession pre)).2.trace) ∧
    (∀ (pre : DB) (md : PaperMetadata) (choice : Overwrite),
      (md.doi = none ∨ md.doi = some "") → (md.title == "") = false →
      SqlOp.selectPaperByTitle md.title ∈
        (checkPaperExists noFaults md choice (openSession pre)).2.trace) ∧
    (∀ (pre : DB) (md : PaperMetadata) (choice : Overwrite) (d : String),
      md.doi = some d → (d == "") = false →
      pre.papers.find? (fun r => r.doi == some d) = none → (md.title == "") = false →
      SqlOp.selectPaperByTitle md.title ∈
        (checkPaperExists noFaults md choice (openSession pre)).2.trace) ∧
    (∀ (pre : DB) (md : PaperMetadata) (p : PaperMetadata),
      pre.papers.find? (fun r => r.title == md.title) = some p → p.title = md.title) := by
  refine ⟨?_, ?_, ?_, ?_⟩
  · intro pre md choice d p hdoi hde hfind
    rw [checkPaperExists_doi_found md choice pre d p hdoi hde hfind]
    refine ⟨rfl, ?_⟩
    intro t
    simp
  · intro pre md choice hdoi hte
    have hd := doiLookup_falsy md (openSession pre) hdoi
    rcases hfind : (openSession pre).work.papers.find? (fun r => r.title == md.title) with
      _ | p
    · rw [checkPaperExists_title_nomatch md choice (openSession pre) (openSession pre)
        hd rfl hte hfind]
      simp
    · rw [checkPaperExists_title_found md choice (openSession pre) (openSession pre) p
        hd rfl hte hfind]
      simp
  · intro pre md choice d hdoi hde hnofind hte
    have hd := doiLookup_nomatch md (openSession pre) d hdoi hde rfl hnofind
    rcases hfind : pre.papers.find? (fun r => r.title == md.title) with _ | p
    · rw [checkPaperExists_title_nomatch md choice (openSession pre) _ hd rfl hte hfind]
      simp
    · rw [checkPaperExists_title_found md choice (openSession pre) _ p hd rfl hte hfind]
      simp
  · intro pre md p hfind
    have := List.find?_some hfind
    simpa using this

/-- Witness for C5 at a concrete store: a stored paper with DOI `10.1/x` and
title `T`, probed with the same DOI but a different title. -/
theorem resolver_doi_precedence_witness :
    ((checkPaperExists noFaults { wPaper with title := "different" } ⟨false, false, false, false⟩
        (openSession ⟨[wPaper], [], [], []⟩)).1 =
      Except.ok ⟨true, ⟨false, false, false, false⟩,
        { { wPaper with title := "different" } with id := wPaper.id }⟩ ∧
      ∀ t, SqlOp.selectPaperByTitle t ∉
        (checkPaperExists noFaults { wPaper with title := "different" }
          ⟨false, false, false, false⟩ (openSession ⟨[wPaper], [], [], []⟩)).2.trace) :=
  resolver_doi_precedence.1 ⟨[wPaper], [], [], []⟩ { wPaper with title := "different" }
    ⟨false, false, false, false⟩ "10.1/x" wPaper (by decide) (by decide) (by decide)

/-! ### What the pipeline's statements target. -/

/-- `commitTxn` does not change the trace. -/
theorem commitTxn_trace (s : Session) : (commitTxn s).trace = s.trace := by
  unfold commitTxn
  split <;> rfl

/-- Membership in a trace built by a fold of single-statement saves. -/
theorem foldl_trace_mem {β : Type} (step : Nat × Session → β → Nat × Session)
    (opOf : β → SqlOp)
    (hstep : ∀ acc b, (step acc b).2.trace = acc.2.trace ++ [opOf b]) :
    ∀ (l : List β) (acc : Nat × Session) (op : SqlOp),
      op ∈ (l.foldl step acc).2.trace → op ∈ acc.2.trace ∨ ∃ b ∈ l, op = opOf b := by
  intro l
  induction l with
  | nil => intro acc op h; exact Or.inl h
  | cons b l ih =>
    intro acc op h
    rcases ih (step acc b) op h with h' | ⟨b', hb', hop⟩
    · rw [hstep] at h'
      rcases List.mem_append.mp h' with h'' | h''
      · exact Or.inl h''
      · exact Or.inr ⟨b, List.mem_cons_self b l, List.mem_singleton.mp h''⟩
    · exact Or.inr ⟨b', List.mem_cons_of_mem _ hb', hop⟩

/-- Statements issued by the delete phase: only per-kind deletes keyed by the
resolved metadata id. -/
theorem mem_trace_phaseDeletes (faults : Nat → Bool) (r : ResolveResult) (s : Session)
    (op : SqlOp) (h : op ∈ (phaseDeletes faults r s).trace) :
    op ∈ s.trace ∨ op = SqlOp.deleteSectionsByPaper r.md.id ∨
      op = SqlOp.deleteImagesByPaper r.md.id ∨ op = SqlOp.deleteTablesByPaper r.md.id := by
  cases hf : r.found <;> cases h1 : r.ow.text_sections <;> cases h2 : r.ow.images <;>
    cases h3 : r.ow.tables <;>
    simp only [phaseDeletes, hf, h1, h2, h3, Bool.false_eq_true, if_false, if_true,
      deleteSectionsByPaper_snd, deleteImagesByPaper_snd, deleteTablesByPaper_snd,
      execSql_trace, List.mem_append, List.mem_singleton, if_neg, if_pos] at h <;>
    tauto

/-- `savePaperMetadata` only runs its one statement. -/
theorem savePaperMetadata_snd (faults : Nat → Bool) (md : PaperMetadata) (u : Bool)
    (s : Session) :
    (savePaperMetadata faults md u s).2 =
      (if u then (execSql faults (SqlOp.updatePaper md) (updatePaperDb md) s).2
       else (execSql faults (SqlOp.insertPaper md) (insertPaperDb md) s).2) := by
  cases u
  · simp only [savePaperMetadata, Bool.false_eq_true, if_false]
    unfold savePaper
    cases hx : execSql faults (SqlOp.insertPaper md) (insertPaperDb md) s with
    | mk e s' => cases e <;> rfl
  · simp only [savePaperMetadata, if_true]
    rw [updatePaper_snd]

/-- Statements issued by the metadata phase: only the metadata UPDATE/INSERT
of the resolved metadata object. -/
theorem mem_trace_phaseMetadata (faults : Nat → Bool) (r : ResolveResult) (s : Session)
    (op : SqlOp) (h : op ∈ (phaseMetadata faults r s).2.trace) :
    op ∈ s.trace ∨ op = SqlOp.updatePaper r.md ∨ op = SqlOp.insertPaper r.md := by
  unfold phaseMetadata at h
  split at h
  · rw [savePaperMetadata_snd] at h
    split at h <;> rw [execSql_trace] at h <;>
      rcases List.mem_append.mp h with h' | h'
    · exact Or.inl h'
    · exact Or.inr (Or.inl (List.mem_singleton.mp h'))
    · exact Or.inl h'
    · exact Or.inr (Or.inr (List.mem_singleton.mp h'))
  · exact Or.inl h

/-- Statements issued by the sections phase: only upserts of the freshly
extracted sections, requested under the resolved metadata id. -/
theorem mem_trace_phaseSections (faults : Nat → Bool) (inp : RunInput) (r : ResolveResult)
    (s : Session) (op : SqlOp) (h : op ∈ (phaseSections faults inp r s).trace) :
    op ∈ s.trace ∨ ∃ row ∈ inp.extractSections r.md.id, op = SqlOp.upsertSection row := by
  unfold phaseSections at h
  split at h
  · split at h
    · exact Or.inl h
    · unfold saveAllSections at h
      split at h
      · exact Or.inl h
      · exact foldl_trace_mem _ (fun sec => SqlOp.upsertSection sec)
          (fun acc b => by
            show (saveTextSection faults b acc.2).2.trace = _
            rw [saveTextSection_snd, execSql_trace])
          (inp.extractSections r.md.id) (0, s) op h
  · exact Or.inl h

/-- Statements issued by the tables phase: only INSERTs of the freshly
extracted tables, requested under the resolved metadata id. -/
theorem mem_trace_phaseTables (faults : Nat → Bool) (inp : RunInput) (r : ResolveResult)
    (s : Session) (op : SqlOp) (h : op ∈ (phaseTables faults inp r s).trace) :
    op ∈ s.trace ∨ ∃ row ∈ inp.extractTables r.md.id, op = SqlOp.insertTable row := by
  unfold phaseTables at h
  split at h
  · split at h
    · exact Or.inl h
    · unfold saveAllTables at h
      exact foldl_trace_mem _ (fun t => SqlOp.insertTable t)
        (fun acc b => by
          show (saveTable faults b acc.2).2.trace = _
          rw [saveTable_snd, execSql_trace])
        (inp.extractTables r.md.id) (0, s) op h
  · exact Or.inl h

/-- Statements issued by the images phase: only upserts of the freshly
extracted images, requested under the resolved metadata id. -/
theorem mem_trace_phaseImages (faults : Nat → Bool) (inp : RunInput) (r : ResolveResult)
    (s : Session) (op : SqlOp) (h : op ∈ (phaseImages faults inp r s).trace) :
    op ∈ s.trace ∨ ∃ row ∈ inp.extractImages r.md.id, op = SqlOp.upsertImage row := by
  unfold phaseImages at h
  split at h
  · split at h
    · exact Or.inl h
    · unfold saveImages at h
      exact foldl_trace_mem _ (fun im => SqlOp.upsertImage im)
        (fun acc b => by
          show (saveImage faults b acc.2).2.trace = _
          rw [saveImage_snd, execSql_trace])
        (inp.extractImages r.md.id) (0, s) op h
  · exact Or.inl h

/-- What C6 requires of each statement: deletes and metadata writes key on the
stored paper's id, and every saved sub-entity row comes from an extraction
performed under the stored paper's id. -/
def targetsStored (inp : RunInput) (p md : PaperMetadata) : SqlOp → Prop
  | SqlOp.deleteSectionsByPaper q => q = p.id
  | SqlOp.deleteTablesByPaper q => q = p.id
  | SqlOp.deleteImagesByPaper q => q = p.id
  | SqlOp.updatePaper row => row = { md with id := p.id }
  | SqlOp.insertPaper row => row = { md with id := p.id }
  | SqlOp.upsertSection row => row ∈ inp.extractSections p.id
  | SqlOp.insertTable row => row ∈ inp.extractTables p.id
  | SqlOp.upsertImage row => row ∈ inp.extractImages p.id
  | _ => True

/-- Statements issued after the metadata phase (sections, tables, images,
commit): only saves of freshly extracted rows. -/
theorem mem_trace_run_tail (faults : Nat → Bool) (inp : RunInput) (r : ResolveResult)
    (s3 : Session) (op : SqlOp)
    (h : op ∈ (commitTxn (phaseImages faults inp r
      (phaseTables faults inp r (phaseSections faults inp r s3)))).trace) :
    op ∈ s3.trace ∨ (∃ row ∈ inp.extractSections r.md.id, op = SqlOp.upsertSection row) ∨
      (∃ row ∈ inp.extractTables r.md.id, op = SqlOp.insertTable row) ∨
      (∃ row ∈ inp.extractImages r.md.id, op = SqlOp.upsertImage row) := by
  rw [commitTxn_trace] at h
  rcases mem_trace_phaseImages _ _ _ _ _ h with h | him
  · rcases mem_trace_phaseTables _ _ _ _ _ h with h | htab
    · rcases mem_trace_phaseSections _ _ _ _ _ h with h | hsec
      · exact Or.inl h
      · exact Or.inr (Or.inl hsec)
    · exact Or.inr (Or.inr (Or.inl htab))
  · exact Or.inr (Or.inr (Or.inr him))

/-- C6: when duplicate resolution finds a stored paper, the resolver
overwrites the extracted metadata's id with the stored paper's id — via the
DOI route (1) and the exact-title route (2) — and (3) every write statement
the run issues afterwards keys on the stored id: per-kind deletes and the
metadata UPDATE/INSERT use it, and every saved sub-entity row comes from an
extraction performed under the stored id, not the freshly computed one. -/
theorem resolver_overwrites_id :
    (∀ (pre : DB) (md : PaperMetadata) (choice : Overwrite) (d : String) (p : PaperMetadata),
      md.doi = some d → (d == "") = false →
      pre.papers.find? (fun r => r.doi == some d) = some p →
      (checkPaperExists noFaults md choice (openSession pre)).1 =
        Except.ok ⟨true, choice, { md with id := p.id }⟩) ∧
    (∀ (pre : DB) (md : PaperMetadata) (choice : Overwrite) (p : PaperMetadata),
      (md.doi = none ∨ md.doi = some "") → (md.title == "") = false →
      pre.papers.find? (fun r => r.title == md.title) = some p →
      (checkPaperExists noFaults md choice (openSession pre)).1 =
        Except.ok ⟨true, choice, { md with id := p.id }⟩) ∧
    (∀ (inp : RunInput) (pre : DB) (md : PaperMetadata) (c d : String) (p : PaperMetadata),
      inp.fileExists = true → inp.content = some c → (c == "") = false →
      inp.metadata = some md → md.doi = some d → (d == "") = false →
      pre.papers.find? (fun r => r.doi == some d) = some p →
      ∀ op ∈ (processPaper inp noFaults pre).2.trace, targetsStored inp p md op) := by
  refine ⟨?_, ?_, ?_⟩
  · intro pre md choice d p hdoi hde hfind
    rw [checkPaperExists_doi_found md choice pre d p hdoi hde hfind]
  · intro pre md choice p hdoi hte hfind
    rw [checkPaperExists_title_found md choice (openSession pre) (openSession pre) p
      (doiLookup_falsy md (openSession pre) hdoi) rfl hte hfind]
  · intro inp pre md c d p hfe hc hce hmd hdoi hde hfind op hop
    have heq := checkPaperExists_doi_found md inp.choice pre d p hdoi hde hfind
    simp only [processPaper, hfe, hc, hce, hmd, heq, Bool.not_true, Bool.false_eq_true,
      if_false] at hop
    set r : ResolveResult := ⟨true, inp.choice, { md with id := p.id }⟩ with hr
    set s1 : Session := ⟨pre, pre, false,
      [SqlOp.selectPaperByDoi d, SqlOp.countSectionsByPaper p.id,
        SqlOp.countTablesByPaper p.id, SqlOp.selectImagesByPaper p.id], 4⟩ with hs1
    have hbase : ∀ o : SqlOp, o ∈ s1.trace → targetsStored inp p md o := by
      intro o ho
      rw [hs1] at ho
      rcases List.mem_cons.mp ho with rfl | ho
      · trivial
      rcases List.mem_cons.mp ho with rfl | ho
      · trivial
      rcases List.mem_cons.mp ho with rfl | ho
      · trivial
      rcases List.mem_cons.mp ho with rfl | ho
      · trivial
      · simp at ho
    split at hop
    · exact hbase op hop
    · have hdel : ∀ o : SqlOp,
          o ∈ (phaseDeletes noFaults r s1).trace → targetsStored inp p md o := by
        intro o ho
        rcases mem_trace_phaseDeletes _ _ _ _ ho with ho | rfl | rfl | rfl
        · exact hbase o ho
        · rfl
        · rfl
        · rfl
      have hmeta : ∀ (s3 : Session), (∀ o : SqlOp, o ∈ s3.trace → targetsStored inp p md o) →
          ∀ o : SqlOp, o ∈ (phaseMetadata noFaults r s3).2.trace →
            targetsStored inp p md o := by
        intro s3 hs3 o ho
        rcases mem_trace_phaseMetadata _ _ _ _ ho with ho | rfl | rfl
        · exact hs3 o ho
        · rfl
        · rfl
      cases hx : phaseMetadata noFaults r (phaseDeletes noFaults r s1) with
      | mk b s3 =>
        have hs3 : ∀ o : SqlOp, o ∈ s3.trace → targetsStored inp p md o := by
          intro o ho
          have hmem : o ∈ (phaseMetadata noFaults r (phaseDeletes noFaults r s1)).2.trace := by
            rw [hx]
            exact ho
          exact hmeta _ hdel o hmem
        rw [hx] at hop
        cases b
        · exact hs3 op hop
        · rcases mem_trace_run_tail noFaults inp r s3 op hop with ho | hsec | htab | him
          · exact hs3 op ho
          · obtain ⟨row, hrow, rfl⟩ := hsec
            exact hrow
          · obtain ⟨row, hrow, rfl⟩ := htab
            exact hrow
          · obtain ⟨row, hrow, rfl⟩ := him
            exact hrow

/-- Witness for C6 at a concrete store and run: a stored paper matched by DOI,
overwrite of tables requested. -/
theorem resolver_overwrites_id_witness :
    (checkPaperExists noFaults { wPaper with id := 999 } ⟨false, false, true, false⟩
      (openSession ⟨[wPaper], [], [], []⟩)).1 =
      Except.ok ⟨true, ⟨false, false, true, false⟩,
        { { wPaper with id := 999 } with id := wPaper.id }⟩ :=
  resolver_overwrites_id.1 ⟨[wPaper], [], [], []⟩ { wPaper with id := 999 }
    ⟨false, false, true, false⟩ "10.1/x" wPaper (by decide) (by decide) (by decide)

/-! ### The fault-free tables-only overwrite run, computed exactly. -/

/-- A fresh table INSERT that satisfies every constraint appends its row. -/
theorem insertTableDb_some (t : TableData) (db : DB) (pid : Nat)
    (hpid : t.paper_id = some pid) (hfk : db.papers.any (fun q => q.id == pid) = true)
    (hid : db.tables.any (fun r => r.id == t.id) = false)
    (hpair : db.tables.any (fun r => r.paper_id == t.paper_id &&
      r.table_number == t.table_number) = false) :
    insertTableDb t db = some ((), { db with tables := db.tables ++ [t] }) := by
  unfold insertTableDb
  rw [hpid] at hpair ⊢
  simp [hfk, hid, hpair]

/-- A successful `save_table`, as one record equation. -/
theorem saveTable_ok (t : TableData) (s : Session) (db' : DB)
    (ha : s.aborted = false) (hap : insertTableDb t s.work = some ((), db')) :
    saveTable noFaults t s = (true,
      { s with
        work := db',
        trace := s.trace ++ [SqlOp.insertTable t],
        stmtIdx := s.stmtIdx + 1 }) := by
  unfold saveTable
  rw [execSql_ok noFaults (SqlOp.insertTable t) (insertTableDb t) s () db' ha rfl hap]

/-- The table batch save when every INSERT satisfies its constraints: all rows
are appended in order and every save reports success. -/
theorem saveTables_foldl_ok (rows : List TableData) (pid : Nat) :
    ∀ (s : Session) (c : Nat),
      s.aborted = false →
      s.work.papers.any (fun q => q.id == pid) = true →
      (∀ t ∈ rows, t.paper_id = some pid) →
      (∀ t ∈ rows, s.work.tables.any (fun r => r.id == t.id) = false) →
      (∀ t ∈ rows, s.work.tables.any (fun r => r.paper_id == t.paper_id &&
        r.table_number == t.table_number) = false) →
      rows.Pairwise (fun a b =>
        (a.id == b.id) = false ∧ (a.table_number == b.table_number) = false) →
      rows.foldl (fun (acc : Nat × Session) t =>
          let r2 := saveTable noFaults t acc.2
          (acc.1 + (if r2.1 then 1 else 0), r2.2)) (c, s) =
        (c + rows.length,
          { s with
            work := { s.work with tables := s.work.tables ++ rows },
            trace := s.trace ++ rows.map SqlOp.insertTable,
            stmtIdx := s.stmtIdx + rows.length }) := by
  induction rows with
  | nil =>
    intro s c _ _ _ _ _ _
    simp
  | cons t rows ih =>
    intro s c ha hfk hpid hid hpair hpw
    obtain ⟨hrel, hpwtail⟩ := List.pairwise_cons.mp hpw
    have hinsert : insertTableDb t s.work =
        some ((), { s.work with tables := s.work.tables ++ [t] }) :=
      insertTableDb_some t s.work pid (hpid t (List.mem_cons_self t rows)) hfk
        (hid t (List.mem_cons_self t rows)) (hpair t (List.mem_cons_self t rows))
    have hsave := saveTable_ok t s _ ha hinsert
    rw [List.foldl_cons]
    have happ : (let r2 := saveTable noFaults t (c, s).2
        ((c, s).1 + (if r2.1 then 1 else 0), r2.2)) =
        (c + 1, { s with
          work := { s.work with tables := s.work.tables ++ [t] },
          trace := s.trace ++ [SqlOp.insertTable t],
          stmtIdx := s.stmtIdx + 1 }) := by
      simp [hsave]
    rw [happ]
    have hnext := ih ({ s with
        work := { s.work with tables := s.work.tables ++ [t] },
        trace := s.trace ++ [SqlOp.insertTable t],
        stmtIdx := s.stmtIdx + 1 }) (c + 1)
      ha hfk (fun u hu => hpid u (List.mem_cons_of_mem t hu))
      (fun u hu => by
        have h1 := hid u (List.mem_cons_of_mem t hu)
        have h2 := (hrel u hu).1
        simp [List.any_append, h1, h2])
      (fun u hu => by
        have h1 := hpair u (List.mem_cons_of_mem t hu)
        have h2 := (hrel u hu).2
        simp [List.any_append, h1, h2]) hpwtail
    rw [hnext]
    simp [List.append_assoc, Nat.add_assoc, Nat.add_comm]
    omega

/-- `save_all` for tables when every INSERT satisfies its constraints. -/
theorem saveAllTables_ok (rows : List TableData) (pid : Nat) (s : Session)
    (ha : s.aborted = false)
    (hfk : s.work.papers.any (fun q => q.id == pid) = true)
    (hpid : ∀ t ∈ rows, t.paper_id = some pid)
    (hid : ∀ t ∈ rows, s.work.tables.any (fun r => r.id == t.id) = false)
    (hpair : ∀ t ∈ rows, s.work.tables.any (fun r => r.paper_id == t.paper_id &&
      r.table_number == t.table_number) = false)
    (hpw : rows.Pairwise (fun a b =>
      (a.id == b.id) = false ∧ (a.table_number == b.table_number) = false)) :
    saveAllTables noFaults rows s = (true,
      { s with
        work := { s.work with tables := s.work.tables ++ rows },
        trace := s.trace ++ rows.map SqlOp.insertTable,
        stmtIdx := s.stmtIdx + rows.length }) := by
  unfold saveAllTables
  rw [saveTables_foldl_ok rows pid s 0 ha hfk hpid hid hpair hpw]
  simp

/-- The metadata phase is a no-op when the paper exists and metadata is not
selected for overwrite. -/
theorem phaseMetadata_skip (faults : Nat → Bool) (r : ResolveResult) (s : Session)
    (hfound : r.found = true) (hmeta : r.ow.metadata = false) :
    phaseMetadata faults r s = (true, s) := by
  unfold phaseMetadata
  simp [hfound, hmeta]

/-- The sections phase is a no-op when the paper exists and sections are not
selected for overwrite. -/
theorem phaseSections_skip (faults : Nat → Bool) (inp : RunInput) (r : ResolveResult)
    (s : Session) (hfound : r.found = true) (hsec : r.ow.text_sections = false) :
    phaseSections faults inp r s = s := by
  unfold phaseSections
  simp [hfound, hsec]

/-- The images phase is a no-op when the paper exists and images are not
selected for overwrite. -/
theorem phaseImages_skip (faults : Nat → Bool) (inp : RunInput) (r : ResolveResult)
    (s : Session) (hfound : r.found = true) (him : r.ow.images = false) :
    phaseImages faults inp r s = s := by
  unfold phaseImages
  simp [hfound, him]

/-- A fault-free table delete, as one record equation. -/
theorem deleteTablesByPaper_ok (pid : Nat) (s : Session) (ha : s.aborted = false) :
    deleteTablesByPaper noFaults pid s = (true,
      { s with
        work := { s.work with
          tables := s.work.tables.filter (fun r => !(r.paper_id == some pid)) },
        trace := s.trace ++ [SqlOp.deleteTablesByPaper pid],
        stmtIdx := s.stmtIdx + 1 }) := by
  unfold deleteTablesByPaper
  rw [execSql_ok noFaults (SqlOp.deleteTablesByPaper pid) (deleteTablesDb pid) s () _ ha rfl rfl]

/-- The delete phase under a tables-only overwrite decision issues exactly the
one table delete. -/
theorem phaseDeletes_tables_only (r : ResolveResult) (s : Session)
    (hfound : r.found = true) (hsec : r.ow.text_sections = false)
    (him : r.ow.images = false) (htab : r.ow.tables = true) (ha : s.aborted = false) :
    phaseDeletes noFaults r s =
      { s with
        work := { s.work with
          tables := s.work.tables.filter (fun t => !(t.paper_id == some r.md.id)) },
        trace := s.trace ++ [SqlOp.deleteTablesByPaper r.md.id],
        stmtIdx := s.stmtIdx + 1 } := by
  unfold phaseDeletes
  simp only [hfound, hsec, him, htab, if_true, Bool.false_eq_true, if_false]
  rw [deleteTablesByPaper_ok r.md.id s ha]

/-- COMMIT of a clean transaction publishes the working state. -/
theorem commitTxn_not_aborted (s : Session) (ha : s.aborted = false) :
    commitTxn s = { s with committed := s.work } := by
  unfold commitTxn
  simp [ha]

/-- C7: a duplicate run where the operator picks menu choice 3 (overwrite
tables only).  Provided the freshly extracted tables satisfy the insert
constraints, the run succeeds, the committed post-state keeps the stored
metadata row, sections and images untouched and replaces the stored tables
of that paper by exactly the newly extracted ones, and the only statements
issued are the duplicate-resolution reads, the one table delete, and the
table INSERTs. -/
theorem selective_overwrite_tables_only
    (inp : RunInput) (pre : DB) (md : PaperMetadata) (c d : String) (p : PaperMetadata)
    (hfe : inp.fileExists = true) (hc : inp.content = some c) (hce : (c == "") = false)
    (hmd : inp.metadata = some md)
    (hmenu : choiceToOverwrite 3 = some inp.choice)
    (hdoi : md.doi = some d) (hde : (d == "") = false)
    (hfind : pre.papers.find? (fun r => r.doi == some d) = some p)
    (hpids : ∀ t ∈ inp.extractTables p.id, t.paper_id = some p.id)
    (hids : ∀ t ∈ inp.extractTables p.id,
      (pre.tables.filter (fun r => !(r.paper_id == some p.id))).any
        (fun r => r.id == t.id) = false)
    (hpw : (inp.extractTables p.id).Pairwise (fun a b =>
      (a.id == b.id) = false ∧ (a.table_number == b.table_number) = false)) :
    (processPaper inp noFaults pre).1 = true ∧
    (processPaper inp noFaults pre).2.committed =
      { papers := pre.papers, sections := pre.sections,
        tables := pre.tables.filter (fun r => !(r.paper_id == some p.id)) ++
          inp.extractTables p.id,
        images := pre.images } ∧
    (∀ op ∈ (processPaper inp noFaults pre).2.trace,
      op = SqlOp.selectPaperByDoi d ∨ op = SqlOp.countSectionsByPaper p.id ∨
        op = SqlOp.countTablesByPaper p.id ∨ op = SqlOp.selectImagesByPaper p.id ∨
        op = SqlOp.deleteTablesByPaper p.id ∨
        ∃ row ∈ inp.extractTables p.id, op = SqlOp.insertTable row) := by
  have hchoice : inp.choice = ⟨false, false, true, false⟩ := by
    have h := hmenu
    rw [show choiceToOverwrite 3 = some (⟨false, false, true, false⟩ : Overwrite) from rfl] at h
    exact (Option.some.inj h).symm
  have heq := checkPaperExists_doi_found md inp.choice pre d p hdoi hde hfind
  rw [hchoice] at heq
  set rows := inp.extractTables p.id with hrows
  set r0 : ResolveResult := ⟨true, ⟨false, false, true, false⟩, { md with id := p.id }⟩ with hr0
  set s1 : Session := ⟨pre, pre, false,
    [SqlOp.selectPaperByDoi d, SqlOp.countSectionsByPaper p.id,
      SqlOp.countTablesByPaper p.id, SqlOp.selectImagesByPaper p.id], 4⟩ with hs1
  have hdel := phaseDeletes_tables_only r0 s1 rfl rfl rfl rfl rfl
  set s2 : Session := ⟨pre,
    { pre with tables := pre.tables.filter (fun t => !(t.paper_id == some p.id)) }, false,
    [SqlOp.selectPaperByDoi d, SqlOp.countSectionsByPaper p.id,
      SqlOp.countTablesByPaper p.id, SqlOp.selectImagesByPaper p.id,
      SqlOp.deleteTablesByPaper p.id], 5⟩ with hs2
  have hdel2 : phaseDeletes noFaults r0 s1 = s2 := hdel
  have hmeta := phaseMetadata_skip noFaults r0 s2 rfl rfl
  have hsec := phaseSections_skip noFaults inp r0 s2 rfl rfl
  have hpmem : pre.papers.any (fun q => q.id == p.id) = true := by
    have hm := List.mem_of_find?_eq_some hfind
    exact List.any_eq_true.mpr ⟨p, hm, by simp⟩
  have hpair2 : ∀ t ∈ rows,
      (pre.tables.filter (fun r => !(r.paper_id == some p.id))).any
        (fun r => r.paper_id == t.paper_id && r.table_number == t.table_number) = false := by
    intro t ht
    rw [List.any_eq_false]
    intro r hr
    obtain ⟨hrmem, hrcond⟩ := List.mem_filter.mp hr
    rw [hpids t ht]
    simp only [Bool.not_eq_true'] at hrcond
    simp [hrcond]
  have htab : phaseTables noFaults inp r0 s2 =
      { s2 with
        work := { s2.work with tables := s2.work.tables ++ rows },
        trace := s2.trace ++ rows.map SqlOp.insertTable,
        stmtIdx := s2.stmtIdx + rows.length } := by
    unfold phaseTables
    have hcond : (!r0.found || r0.ow.tables) = true := rfl
    rw [hcond]
    simp only [if_true]
    by_cases hemp : rows.isEmpty
    · have : rows = [] := List.isEmpty_iff.mp hemp
      rw [show inp.extractTables r0.md.id = rows from rfl, this]
      simp
    · rw [show inp.extractTables r0.md.id = rows from rfl]
      simp only [hemp, Bool.false_eq_true, if_false]
      rw [saveAllTables_ok rows p.id s2 rfl hpmem hpids
        (by
          intro t ht
          exact hids t ht)
        hpair2 hpw]
  have him : ∀ s : Session, phaseImages noFaults inp r0 s = s :=
    fun s => phaseImages_skip noFaults inp r0 s rfl rfl
  have hrun : processPaper inp noFaults pre = (true, commitTxn
      { s2 with
        work := { s2.work with tables := s2.work.tables ++ rows },
        trace := s2.trace ++ rows.map SqlOp.insertTable,
        stmtIdx := s2.stmtIdx + rows.length }) := by
    simp only [processPaper, hfe, hc, hce, hmd, hchoice, heq, Bool.not_true,
      Bool.false_eq_true, if_false]
    have hcond : (r0.found && !r0.ow.anyFlag) = false := rfl
    rw [hcond]
    simp only [Bool.false_eq_true, if_false]
    rw [hdel2, hmeta]
    simp only []
    rw [hsec, htab, him]
  rw [hrun, commitTxn_not_aborted _ rfl]
  refine ⟨rfl, rfl, ?_⟩
  intro op hop
  simp only [List.mem_append, List.mem_cons, List.mem_singleton, List.mem_map] at hop
  rcases hop with ((rfl | rfl | rfl | rfl | rfl | h) | ⟨row, hrow, rfl⟩)
  · exact Or.inl rfl
  · exact Or.inr (Or.inl rfl)
  · exact Or.inr (Or.inr (Or.inl rfl))
  · exact Or.inr (Or.inr (Or.inr (Or.inl rfl)))
  · exact Or.inr (Or.inr (Or.inr (Or.inr (Or.inl rfl))))
  · simp at h
  · exact Or.inr (Or.inr (Or.inr (Or.inr (Or.inr ⟨row, hrow, rfl⟩))))

/-- C7 witness store: one stored paper with 3 sections and 2 tables. -/
def w7pre : DB :=
  ⟨[wPaper], [wSection 21 1, wSection 22 2, wSection 23 3], [wTable 5 1, wTable 6 2], []⟩

/-- C7 witness metadata: same DOI as the stored paper, fresh content-hash id. -/
def w7md : PaperMetadata := { wPaper with id := 999 }

/-- C7 witness run input: overwrite tables only, two freshly extracted tables. -/
def w7inp : RunInput :=
  { fileExists := true
    content := some "x"
    metadata := some w7md
    extractSections := fun _ => []
    extractTables := fun _ => [wTable 41 1, wTable 42 2]
    extractImages := fun _ => []
    choice := ⟨false, false, true, false⟩ }

/-- Witness for C7: in the concrete run the 3 stored sections survive
untouched and the 2 stored tables are replaced by the 2 new ones. -/
theorem selective_overwrite_tables_only_witness :
    (processPaper w7inp noFaults w7pre).1 = true ∧
      (processPaper w7inp noFaults w7pre).2.committed =
        { papers := w7pre.papers, sections := w7pre.sections,
          tables := w7pre.tables.filter (fun r => !(r.paper_id == some wPaper.id)) ++
            w7inp.extractTables wPaper.id,
          images := w7pre.images } :=
  have h := selective_overwrite_tables_only w7inp w7pre w7md "x" "10.1/x" wPaper
    (by decide) (by decide) (by decide) (by decide) (by decide) (by decide) (by decide)
    (by decide) (by decide) (by decide) (by decide)
  ⟨h.1, h.2.1⟩

end PgsqlTrain
